import Mathlib

/-!
Verification of the CBOR validation engine of the cddl crate
(`src/validator/cbor.rs`), against the natural-language specification.

The development shallowly embeds the fragment of the abstract syntax tree and
of the stateful visitor that the claims under study exercise: value literals,
typenames, parenthesized types, maps, arrays, type choices, group choices,
member keys with cuts, occurrences, ranges and control operators.  Generic
arguments, tags, major types, unwrap and group-to-choice enumeration types are
not constructible in the embedded AST, but all state fields of the validator
are carried so that the embedded functions follow the source line by line.

The visitor in the source is open-recursive and can loop forever on cyclic
rule references, so the embedding is written as a fuel-indexed interpreter
`run` over a sum type `Call` of the visitor's methods; `none` means the fuel
was exhausted.  Behavior of external crates (regex matching, URI / base64 /
RFC-3339 parsing, timestamp range checks) is abstracted into an
`ExternalChecks` record that the interpreter takes as a parameter.

Helper functions that live in modules of the repository that are not part of
the provided sources (the visitor walk defaults, `rule_from_ident`, the
`is_ident_*` prelude predicates, occurrence and entry-count arithmetic, and
control-token lookup) are modelled from the specification; each such
definition carries a doc comment starting with `Modelled from the spec:`.
-/

namespace CddlCbor

/-- CBOR data values, mirroring `serde_cbor::Value` (floats are modelled by
rationals; maps iterate in list order, standing for the B-tree order). -/
inductive Value where
  | Null : Value
  | Bool (b : Bool) : Value
  | Integer (i : Int) : Value
  | Float (f : Rat) : Value
  | Bytes (b : List Nat) : Value
  | Text (s : String) : Value
  | Array (a : List Value) : Value
  | Map (m : List (Value × Value)) : Value

/-- Boolean equality on CBOR values, used for key lookup and the
validated-keys set, standing for `PartialEq` on `serde_cbor::Value`. -/
def valueEq : Value → Value → Bool
  | .Null, .Null => true
  | .Bool a, .Bool b => a == b
  | .Integer a, .Integer b => a == b
  | .Float a, .Float b => a == b
  | .Bytes a, .Bytes b => a == b
  | .Text a, .Text b => a == b
  | .Array a, .Array b => listEq a b
  | .Map a, .Map b => pairListEq a b
  | _, _ => false
where
  listEq : List Value → List Value → Bool
    | [], [] => true
    | x :: xs, y :: ys => valueEq x y && listEq xs ys
    | _, _ => false
  pairListEq : List (Value × Value) → List (Value × Value) → Bool
    | [], [] => true
    | (k, v) :: xs, (l, w) :: ys => valueEq k l && valueEq v w && pairListEq xs ys
    | _, _ => false

/-- `Vec::contains` on the validated-keys list. -/
def valueMem (k : Value) (ks : List Value) : Bool :=
  ks.any (fun x => valueEq x k)

/-- `BTreeMap::get`: the value associated with a key. -/
def mapGet (m : List (Value × Value)) (k : Value) : Option Value :=
  match m with
  | [] => none
  | (k0, v0) :: rest => if valueEq k0 k then some v0 else mapGet rest k

/-- Byte-string literal forms (`token::ByteValue`). -/
inductive ByteValue where
  | UTF8 (b : List Nat) : ByteValue
  | B16 (b : List Nat) : ByteValue
  | B64 (b : List Nat) : ByteValue
deriving DecidableEq

/-- CDDL value literals (`token::Value`). -/
inductive TokenValue where
  | INT (i : Int) : TokenValue
  | UINT (u : Nat) : TokenValue
  | FLOAT (f : Rat) : TokenValue
  | TEXT (s : String) : TokenValue
  | BYTE (b : ByteValue) : TokenValue
deriving DecidableEq

/-- Occurrence indicators (`ast::Occur`). -/
inductive Occur where
  | optional : Occur
  | zeroOrMore : Occur
  | oneOrMore : Occur
  | exact (lower : Option Nat) (upper : Option Nat) : Occur
deriving DecidableEq

/-- Control-operator tokens recognized by the validator
(`token::Token`, restricted to the control tokens). -/
inductive Token where
  | EQ | NE | LT | LE | GT | GE | SIZE | AND | WITHIN | DEFAULT
  | REGEXP | PCRE | BITS | CBOR | CBORSEQ
deriving DecidableEq

mutual

/-- A type1: a type2 optionally bound by a range or control operator
(`ast::Type1`; the operator includes its right-hand type2). -/
inductive Type1 where
  | mk (type2 : Type2) (operator : Option Operator) : Type1

/-- A range or control operator with its right-hand type2
(`ast::Operator` together with `ast::RangeCtlOp`). -/
inductive Operator where
  | rangeOp (isInclusive : Bool) (type2 : Type2) : Operator
  | ctlOp (ctrl : String) (type2 : Type2) : Operator

/-- The embedded fragment of `ast::Type2`. -/
inductive Type2 where
  | TextValue (value : String) : Type2
  | IntValue (value : Int) : Type2
  | UintValue (value : Nat) : Type2
  | FloatValue (value : Rat) : Type2
  | Typename (ident : String) : Type2
  | ParenthesizedType (pt : Ty) : Type2
  | Map (group : Group) : Type2
  | Array (group : Group) : Type2
  | Any : Type2

/-- A type: a non-empty ordered list of type choices (`ast::Type`; each
`TypeChoice` wraps a `Type1`). -/
inductive Ty where
  | mk (typeChoices : List Type1) : Ty

/-- A group: a list of group choices (`ast::Group`). -/
inductive Group where
  | mk (groupChoices : List GroupChoice) : Group

/-- A group choice: an ordered list of group entries (`ast::GroupChoice`). -/
inductive GroupChoice where
  | mk (groupEntries : List GroupEntry) : GroupChoice

/-- The embedded fragment of `ast::GroupEntry` (value-member-key entries). -/
inductive GroupEntry where
  | ValueMemberKey (ge : ValueMemberKeyEntry) : GroupEntry

/-- `ast::ValueMemberKeyEntry`: occurrence, optional member key, entry type. -/
inductive ValueMemberKeyEntry where
  | mk (occur : Option Occur) (memberKey : Option MemberKey) (entryType : Ty) :
      ValueMemberKeyEntry

/-- `ast::MemberKey`: a type1 with a cut flag, a bareword, or a value. -/
inductive MemberKey where
  | Type1M (t1 : Type1) (isCut : Bool) : MemberKey
  | Bareword (ident : String) : MemberKey
  | ValueM (value : TokenValue) : MemberKey

end

/-- Accessor for the type choices of a type. -/
def Ty.typeChoices : Ty → List Type1
  | .mk tcs => tcs

/-- Accessor for the group choices of a group. -/
def Group.groupChoices : Group → List GroupChoice
  | .mk gcs => gcs

/-- Accessor for the entries of a group choice. -/
def GroupChoice.groupEntries : GroupChoice → List GroupEntry
  | .mk ges => ges

/-- Accessor for the occurrence of a value-member-key entry. -/
def ValueMemberKeyEntry.occur : ValueMemberKeyEntry → Option Occur
  | .mk o _ _ => o

/-- Accessor for the member key of a value-member-key entry. -/
def ValueMemberKeyEntry.memberKey : ValueMemberKeyEntry → Option MemberKey
  | .mk _ mk0 _ => mk0

/-- Accessor for the entry type of a value-member-key entry. -/
def ValueMemberKeyEntry.entryType : ValueMemberKeyEntry → Ty
  | .mk _ _ t => t

/-- A type rule (`ast::TypeRule`): name, optional generic parameters, the
type-choice-alternate flag (`/=`), and the right-hand type. -/
structure TypeRule where
  name : String
  genericParams : Option (List String)
  isTypeChoiceAlternate : Bool
  value : Ty

/-- A group rule (`ast::GroupRule`): name, optional generic parameters, the
group-choice-alternate flag (`//=`), and the right-hand group entry. -/
structure GroupRule where
  name : String
  genericParams : Option (List String)
  isGroupChoiceAlternate : Bool
  entry : GroupEntry

/-- A rule (`ast::Rule`). -/
inductive Rule where
  | TypeR (rule : TypeRule) : Rule
  | GroupR (rule : GroupRule) : Rule

/-- A CDDL document: an ordered list of rules (`ast::CDDL`). -/
structure CDDL where
  rules : List Rule

/-- The name of a rule. -/
def Rule.name : Rule → String
  | .TypeR tr => tr.name
  | .GroupR gr => gr.name

/-- Whether a rule is a `/=` or `//=` choice-alternate extension. -/
def Rule.isAlternate : Rule → Bool
  | .TypeR tr => tr.isTypeChoiceAlternate
  | .GroupR gr => gr.isGroupChoiceAlternate

/-- A validation error (`cbor::ValidationError`). -/
structure ValidationError where
  reason : String
  cddl_location : String
  cbor_location : String
  is_multi_type_choice : Bool
  is_multi_group_choice : Bool
  is_group_to_choice_enum : Bool
  type_group_name_entry : Option String
deriving DecidableEq

/-- A generic-rule registration (`cbor::GenericRule`). -/
structure GenericRule where
  name : String
  params : List String
  args : List Type1

/-- Entry-count record produced per group choice (`EntryCount`). -/
structure EntryCount where
  count : Nat
  entryOccurrence : Option Occur

/-- Modelled from the spec: behavior of external crates used by the engine
(PCRE matching via `regex`, URI parsing via `uriparse`, base64url decoding,
RFC-3339 parsing and UNIX-timestamp range checks via `chrono`).  Each Bool
field returns whether the external check succeeds.  `regexCompile` stands for
the regex-pattern pipeline of `visit_value` (JSON-unescape of the pattern,
`as_str`, `Regex::new`): `none` means the pattern compiles, `some msg` means
one of those three steps failed with the message `msg`, which the source
propagates as a hard error aborting the walk. -/
structure ExternalChecks where
  regexMatches : String → String → Bool
  regexCompile : String → Option String
  uriValid : String → Bool
  b64urlValid : String → Bool
  tdateValid : String → Bool
  timestampIntValid : Int → Bool
  timestampFloatValid : Rat → Bool

/-- A trivial instance of the external checks, used for concrete runs. -/
def extTrivial : ExternalChecks :=
  { regexMatches := fun _ _ => true
    regexCompile := fun _ => none
    uriValid := fun _ => true
    b64urlValid := fun _ => true
    tdateValid := fun _ => true
    timestampIntValid := fun _ => true
    timestampFloatValid := fun _ => true }

/-- Modelled from the spec: `lookup_control_from_str` in the token module maps
the textual form of a control operator to its token.  The spec lists the
controls `.size .bits .regexp .pcre .cbor .cborseq .within .and .default`
together with the comparison controls `.eq .ne .lt .le .gt .ge`. -/
def lookup_control_from_str (ctrl : String) : Option Token :=
  if ctrl == ".eq" then some .EQ
  else if ctrl == ".ne" then some .NE
  else if ctrl == ".lt" then some .LT
  else if ctrl == ".le" then some .LE
  else if ctrl == ".gt" then some .GT
  else if ctrl == ".ge" then some .GE
  else if ctrl == ".size" then some .SIZE
  else if ctrl == ".and" then some .AND
  else if ctrl == ".within" then some .WITHIN
  else if ctrl == ".default" then some .DEFAULT
  else if ctrl == ".regexp" then some .REGEXP
  else if ctrl == ".pcre" then some .PCRE
  else if ctrl == ".bits" then some .BITS
  else if ctrl == ".cbor" then some .CBOR
  else if ctrl == ".cborseq" then some .CBORSEQ
  else none

/-- Modelled from the spec: `is_ident_string_data_type` recognizes the prelude
text-string types `tstr` and `text`. -/
def is_ident_string_data_type (_cddl : CDDL) (ident : String) : Bool :=
  ident == "tstr" || ident == "text"

/-- Modelled from the spec: `is_ident_uint_data_type` recognizes the prelude
type `uint`. -/
def is_ident_uint_data_type (_cddl : CDDL) (ident : String) : Bool :=
  ident == "uint"

/-- Modelled from the spec: `is_ident_integer_data_type` recognizes the
prelude integer types (`int = uint / nint`). -/
def is_ident_integer_data_type (_cddl : CDDL) (ident : String) : Bool :=
  ident == "int" || ident == "nint"

/-- Modelled from the spec: `is_ident_float_data_type` recognizes the prelude
float types. -/
def is_ident_float_data_type (_cddl : CDDL) (ident : String) : Bool :=
  ident == "float" || ident == "float16" || ident == "float32" ||
    ident == "float64" || ident == "float16-32" || ident == "float32-64"

/-- Modelled from the spec: `is_ident_numeric_data_type` recognizes the
prelude numeric types (`number = int / float`). -/
def is_ident_numeric_data_type (cddl : CDDL) (ident : String) : Bool :=
  is_ident_uint_data_type cddl ident || is_ident_integer_data_type cddl ident ||
    is_ident_float_data_type cddl ident || ident == "number"

/-- Modelled from the spec: `is_ident_bool_data_type` recognizes the prelude
type `bool`. -/
def is_ident_bool_data_type (_cddl : CDDL) (ident : String) : Bool :=
  ident == "bool"

/-- Modelled from the spec: `ident_matches_bool_value` matches the prelude
value types `true` and `false` against a boolean. -/
def ident_matches_bool_value (_cddl : CDDL) (ident : String) (b : Bool) : Bool :=
  (ident == "true" && b) || (ident == "false" && !b)

/-- Modelled from the spec: `is_ident_null_data_type` recognizes the prelude
types `nil` and `null`. -/
def is_ident_null_data_type (_cddl : CDDL) (ident : String) : Bool :=
  ident == "nil" || ident == "null"

/-- Modelled from the spec: `is_ident_byte_string_data_type` recognizes the
prelude byte-string types `bstr` and `bytes`. -/
def is_ident_byte_string_data_type (_cddl : CDDL) (ident : String) : Bool :=
  ident == "bstr" || ident == "bytes"

/-- Modelled from the spec: `is_ident_any_type` recognizes the prelude type
`any`. -/
def is_ident_any_type (_cddl : CDDL) (ident : String) : Bool :=
  ident == "any"

/-- Modelled from the spec: `is_ident_uri_data_type` recognizes the prelude
type `uri`. -/
def is_ident_uri_data_type (_cddl : CDDL) (ident : String) : Bool :=
  ident == "uri"

/-- Modelled from the spec: `is_ident_b64url_data_type` recognizes the prelude
type `b64url`. -/
def is_ident_b64url_data_type (_cddl : CDDL) (ident : String) : Bool :=
  ident == "b64url"

/-- Modelled from the spec: `is_ident_tdate_data_type` recognizes the prelude
type `tdate`. -/
def is_ident_tdate_data_type (_cddl : CDDL) (ident : String) : Bool :=
  ident == "tdate"

/-- Modelled from the spec: `is_ident_time_data_type` recognizes the prelude
type `time`. -/
def is_ident_time_data_type (_cddl : CDDL) (ident : String) : Bool :=
  ident == "time"

/-- Modelled from the spec: `rule_from_ident` resolves an identifier to the
rule that defines it — the first rule with the matching name that is not a
`/=` or `//=` choice-alternate extension. -/
def rule_from_ident (cddl : CDDL) (ident : String) : Option Rule :=
  cddl.rules.find? (fun r => r.name == ident && !r.isAlternate)

/-- Modelled from the spec: `type_choice_alternates_from_ident` gathers the
type choices a type rule stands for — the base rule right-hand type followed
by the types appended by `/=` extension rules of the same name, in document
order ("Visit the root rule's type"; invariant 3: a `/=` extension appends a
type choice). -/
def type_choice_alternates_from_ident (cddl : CDDL) (ident : String) :
    List Ty :=
  cddl.rules.filterMap (fun r =>
    match r with
    | .TypeR tr => if tr.name == ident then some tr.value else none
    | .GroupR _ => none)

/-- Modelled from the spec: `group_choice_alternates_from_ident` gathers the
group entries a group rule stands for — the base rule entry followed by the
entries appended by `//=` extension rules of the same name. -/
def group_choice_alternates_from_ident (cddl : CDDL) (ident : String) :
    List GroupEntry :=
  cddl.rules.filterMap (fun r =>
    match r with
    | .GroupR gr => if gr.name == ident then some gr.entry else none
    | .TypeR _ => none)

/-- Modelled from the spec: `type_choices_from_group_choice` turns each group
entry of a group choice into a type alternative ("treat each group entry as a
type alternative; validate the value against the disjunction"). -/
def type_choices_from_group_choice (_cddl : CDDL) (gc : GroupChoice) :
    List Type1 :=
  gc.groupEntries.flatMap (fun ge =>
    match ge with
    | .ValueMemberKey e => e.entryType.typeChoices)

/-- Modelled from the spec: `generic_params_from_rule` extracts the declared
generic parameter names of a rule. -/
def generic_params_from_rule (r : Rule) : Option (List String) :=
  match r with
  | .TypeR tr => tr.genericParams
  | .GroupR gr => gr.genericParams

/-- Modelled from the spec: `entry_counts_from_group_choice` computes the
per-choice entry count — the number of entries with no occurrence indicator
("sum of required entries, recognizing `?` and `*`"), recording the first
entry occurrence when present. -/
def entry_counts_from_group_choice (_cddl : CDDL) (gc : GroupChoice) :
    EntryCount :=
  { count :=
      (gc.groupEntries.filter (fun ge =>
        match ge with
        | .ValueMemberKey e => e.occur.isNone)).length
    entryOccurrence :=
      (gc.groupEntries.filterMap (fun ge =>
        match ge with
        | .ValueMemberKey e => e.occur)).head? }

/-- Modelled from the spec: `validate_entry_count` checks an actual number of
entries against the per-choice entry counts: it holds when there are no
recorded counts, or when some choice either matches the length exactly or has
an occurrence admitting it. -/
def validate_entry_count (ecs : List EntryCount) (len : Nat) : Bool :=
  ecs.isEmpty ||
    ecs.any (fun ec =>
      len == ec.count ||
        match ec.entryOccurrence with
        | some .zeroOrMore => true
        | some .optional => true
        | some .oneOrMore => decide (0 < len)
        | some (.exact lo hi) =>
            (match lo with | some l => decide (l ≤ len) | none => true) &&
              (match hi with | some h => decide (len ≤ h) | none => true)
        | none => false)

/-- Modelled from the spec: `validate_array_occurrence` decides, given the
occurrence in effect and an array, whether to iterate the items (per-element
semantics, `Ok true`) or to walk positionally (`Ok false`), and reports an
error when the length is not admitted ("`?` → 0..1, `*` → 0..∞, `+` → 1..∞,
`N*M` → N..M"). -/
def validate_array_occurrence (occ : Option Occur) (a : List Value) :
    Except String Bool :=
  match occ with
  | some .zeroOrMore => .ok true
  | some .oneOrMore =>
      if a.isEmpty then
        .error ("array must have at least one item")
      else .ok true
  | some .optional =>
      if a.length ≤ 1 then .ok false
      else .error ("array must have 0 or 1 items")
  | some (.exact lo hi) =>
      if (match lo with | some l => decide (l ≤ a.length) | none => true) &&
          (match hi with | some h => decide (a.length ≤ h) | none => true) then
        .ok true
      else
        .error ("array must have a number of items per the occurrence")
  | none => .ok false

/-- Rendering of CBOR values for error messages, standing for the `Debug`
format (`{:?}`) of `serde_cbor::Value`. -/
def reprValue : Value → String
  | .Null => "Null"
  | .Bool b => "Bool(" ++ toString b ++ ")"
  | .Integer i => "Integer(" ++ toString i ++ ")"
  | .Float f => "Float(" ++ toString f ++ ")"
  | .Bytes b => "Bytes(" ++ toString b ++ ")"
  | .Text s => "Text(\"" ++ s ++ "\")"
  | .Array a => "Array[" ++ reprList a ++ "]"
  | .Map m => "Map[" ++ reprPairs m ++ "]"
where
  reprList : List Value → String
    | [] => ""
    | [v] => reprValue v
    | v :: rest => reprValue v ++ ", " ++ reprList rest
  reprPairs : List (Value × Value) → String
    | [] => ""
    | [(k, v)] => reprValue k ++ ": " ++ reprValue v
    | (k, v) :: rest => reprValue k ++ ": " ++ reprValue v ++ ", " ++ reprPairs rest

/-- Rendering of CDDL value literals for error messages, standing for the
`Display` format of `token::Value`. -/
def dispTokenValue : TokenValue → String
  | .INT i => toString i
  | .UINT u => toString u
  | .FLOAT f => toString f
  | .TEXT s => s
  | .BYTE (.UTF8 b) => toString b
  | .BYTE (.B16 b) => toString b
  | .BYTE (.B64 b) => toString b

/-- Rendering of control tokens for error messages, standing for the
`Display` format of `token::Token`. -/
def dispToken : Token → String
  | .EQ => ".eq" | .NE => ".ne" | .LT => ".lt" | .LE => ".le"
  | .GT => ".gt" | .GE => ".ge" | .SIZE => ".size" | .AND => ".and"
  | .WITHIN => ".within" | .DEFAULT => ".default"
  | .REGEXP => ".regexp" | .PCRE => ".pcre"
  | .BITS => ".bits" | .CBOR => ".cbor" | .CBORSEQ => ".cborseq"

/-- Rendering of occurrence indicators for error messages. -/
def dispOccur : Occur → String
  | .optional => "?"
  | .zeroOrMore => "*"
  | .oneOrMore => "+"
  | .exact lo hi =>
      (match lo with | some l => toString l | none => "") ++ "*" ++
        (match hi with | some h => toString h | none => "")

mutual

/-- Rendering of a type1, standing for `Display` of `ast::Type1`. -/
def dispType1 : Type1 → String
  | .mk t2 none => dispType2 t2
  | .mk t2 (some (.rangeOp true u)) => dispType2 t2 ++ ".." ++ dispType2 u
  | .mk t2 (some (.rangeOp false u)) => dispType2 t2 ++ "..." ++ dispType2 u
  | .mk t2 (some (.ctlOp c u)) => dispType2 t2 ++ " " ++ c ++ " " ++ dispType2 u

/-- Rendering of a type2, standing for `Display` of `ast::Type2`. -/
def dispType2 : Type2 → String
  | .TextValue s => "\"" ++ s ++ "\""
  | .IntValue i => toString i
  | .UintValue u => toString u
  | .FloatValue f => toString f
  | .Typename id => id
  | .ParenthesizedType pt => "(" ++ dispTy pt ++ ")"
  | .Map g => "\x7b " ++ dispGroup g ++ " \x7d"
  | .Array g => "[ " ++ dispGroup g ++ " ]"
  | .Any => "#"

/-- Rendering of a type, standing for `Display` of `ast::Type`. -/
def dispTy : Ty → String
  | .mk tcs => dispType1List tcs

/-- Rendering of type choices joined by ` / `. -/
def dispType1List : List Type1 → String
  | [] => ""
  | [tc] => dispType1 tc
  | tc :: rest => dispType1 tc ++ " / " ++ dispType1List rest

/-- Rendering of a group, standing for `Display` of `ast::Group`. -/
def dispGroup : Group → String
  | .mk gcs => dispGroupChoiceList gcs

/-- Rendering of group choices joined by ` // `. -/
def dispGroupChoiceList : List GroupChoice → String
  | [] => ""
  | [gc] => dispGroupChoice gc
  | gc :: rest => dispGroupChoice gc ++ " // " ++ dispGroupChoiceList rest

/-- Rendering of a group choice. -/
def dispGroupChoice : GroupChoice → String
  | .mk ges => dispEntryList ges

/-- Rendering of group entries joined by `, `. -/
def dispEntryList : List GroupEntry → String
  | [] => ""
  | [ge] => dispEntry ge
  | ge :: rest => dispEntry ge ++ ", " ++ dispEntryList rest

/-- Rendering of a group entry. -/
def dispEntry : GroupEntry → String
  | .ValueMemberKey (.mk occ mk0 t) =>
      (match occ with | some o => dispOccur o ++ " " | none => "") ++
        (match mk0 with | some k => dispMemberKey k | none => "") ++ dispTy t

/-- Rendering of a member key. -/
def dispMemberKey : MemberKey → String
  | .Type1M t1 true => dispType1 t1 ++ " ^ => "
  | .Type1M t1 false => dispType1 t1 ++ " => "
  | .Bareword id => id ++ ": "
  | .ValueM v => dispTokenValue v ++ " => "

end

/-- Converts a CDDL value type to a CBOR value
(`token_value_into_cbor_value`). -/
def token_value_into_cbor_value (value : TokenValue) : Value :=
  match value with
  | .UINT i => .Integer (Int.ofNat i)
  | .INT i => .Integer i
  | .FLOAT f => .Float f
  | .TEXT t => .Text t
  | .BYTE (.UTF8 b) => .Bytes b
  | .BYTE (.B16 b) => .Bytes b
  | .BYTE (.B64 b) => .Bytes b

/-- `Type1::from(token::Value)`: the type1 standing for a value literal,
recorded as the cut value for diagnostics. -/
def type1FromValue (value : TokenValue) : Type1 :=
  match value with
  | .INT i => .mk (.IntValue i) none
  | .UINT u => .mk (.UintValue u) none
  | .FLOAT f => .mk (.FloatValue f) none
  | .TEXT s => .mk (.TextValue s) none
  | .BYTE b => .mk (.TextValue (toString (match b with
      | .UTF8 l => l | .B16 l => l | .B64 l => l))) none

/-- `f64::EPSILON`, used by the float equality comparisons. -/
def f64Epsilon : Rat := 1 / 4503599627370496

/-- The UTF-8 byte length of a string (`str::len` in Rust). -/
def strLen (s : String) : Nat := s.utf8ByteSize

/-- The UTF-8 bytes of a string (`str::as_bytes` in Rust). -/
def strBytes (s : String) : List Nat := s.toUTF8.toList.map (fun b => b.toNat)

/-- The mutable state of `CBORValidator`, as one record.  `cddl` is threaded
as a parameter of the interpreter instead; all other fields are carried
verbatim.  `hard_error` is not a field of the struct: it carries the
`Result`-error channel of the visitor methods — a `ValidationError` returned
via `?` (raised only by the regex-pattern pipeline of `visit_value`), which
unwinds to `validate` and is reported there as `Error::Validation(vec![e])`,
discarding the accumulated `errors` list.  Every state update of the walk
leaves it untouched, and each spawned child validator propagates its own
channel into the parent, mirroring the `?` on child visits. -/
structure VState where
  cbor : Value
  errors : List ValidationError
  cddl_location : String
  cbor_location : String
  occurrence : Option Occur
  group_entry_idx : Option Nat
  object_value : Option Value
  is_member_key : Bool
  is_cut_present : Bool
  cut_value : Option Type1
  eval_generic_rule : Option String
  generic_rules : List GenericRule
  ctrl : Option Token
  is_group_to_choice_enum : Bool
  is_multi_type_choice : Bool
  is_multi_group_choice : Bool
  type_group_name_entry : Option String
  advance_to_next_entry : Bool
  is_ctrl_map_equality : Bool
  entry_counts : Option (List EntryCount)
  validated_keys : Option (List Value)
  values_to_validate : Option (List Value)
  hard_error : Option ValidationError

/-- `CBORValidator::new`: a fresh validator state over a CBOR value. -/
def newValidator (cbor : Value) : VState :=
  { cbor := cbor
    errors := []
    cddl_location := ""
    cbor_location := ""
    occurrence := none
    group_entry_idx := none
    object_value := none
    is_member_key := false
    is_cut_present := false
    cut_value := none
    eval_generic_rule := none
    generic_rules := []
    ctrl := none
    is_group_to_choice_enum := false
    is_multi_type_choice := false
    is_multi_group_choice := false
    type_group_name_entry := none
    advance_to_next_entry := false
    is_ctrl_map_equality := false
    entry_counts := none
    validated_keys := none
    values_to_validate := none
    hard_error := none }

/-- Propagation of the hard-error channel across a child-validator run: the
first raised error wins, matching the `?` unwinding order of the source. -/
def orHard : Option ValidationError → Option ValidationError →
    Option ValidationError
  | some e, _ => some e
  | none, o => o

/-- The validation error `CBORValidator::add_error` constructs: the reason
together with the current locations and choice flags. -/
def mkErrOf (st : VState) (reason : String) : ValidationError :=
  { reason := reason
    cddl_location := st.cddl_location
    cbor_location := st.cbor_location
    is_multi_type_choice := st.is_multi_type_choice
    is_multi_group_choice := st.is_multi_group_choice
    is_group_to_choice_enum := st.is_group_to_choice_enum
    type_group_name_entry := st.type_group_name_entry }

/-- `CBORValidator::add_error`: push a validation error carrying the current
locations and choice flags. -/
def addError (st : VState) (reason : String) : VState :=
  { st with errors := st.errors ++ [mkErrOf st reason] }

/-- `add_error` changes no field other than the error list. -/
theorem mkErrOf_addError (st : VState) (r0 r : String) :
    mkErrOf (addError st r0) r = mkErrOf st r := rfl

/-- `self.validated_keys.get_or_insert(vec![k]).push(k)`: when the set is
uninitialized the key is recorded twice, matching the source. -/
def pushValidatedKey (ks : Option (List Value)) (k : Value) :
    Option (List Value) :=
  match ks with
  | none => some [k, k]
  | some l => some (l ++ [k])

/-- A child validator for array items: copies the generic state, the
multi-type-choice flag, and extends the data location with the index. -/
def childArray (st : VState) (v : Value) (idx : Nat) : VState :=
  { newValidator v with
      generic_rules := st.generic_rules
      eval_generic_rule := st.eval_generic_rule
      is_multi_type_choice := st.is_multi_type_choice
      cbor_location := st.cbor_location ++ "/" ++ toString idx }

/-- A child validator for member-key matches and hoisted entry values: copies
the generic state, both choice flags, the data location and the enclosing
type/group-name entry. -/
def childEntry (st : VState) (v : Value) : VState :=
  { newValidator v with
      generic_rules := st.generic_rules
      eval_generic_rule := st.eval_generic_rule
      is_multi_type_choice := st.is_multi_type_choice
      is_multi_group_choice := st.is_multi_group_choice
      cbor_location := st.cbor_location
      type_group_name_entry := st.type_group_name_entry }

/-- A child validator for member-key matches against an array type: like
`childEntry` but also inheriting the entry counts. -/
def childKeyEC (st : VState) (v : Value) : VState :=
  { childEntry st v with entry_counts := st.entry_counts }

/-- The error reported for a failed entry-count check. -/
def entryCountErr (ec : EntryCount) (len : Nat) : String :=
  match ec.entryOccurrence with
  | some occ => "expecting array with length per occurrence " ++ dispOccur occ
  | none =>
      "expecting array with length " ++ toString ec.count ++ ", got " ++
        toString len

/-- The catch-all arm of `visit_identifier`: a type mismatch, reported as a
cut-triggered conflict when a cut value is pending (the cut value is taken). -/
def identFallback (st : VState) (ident : String) : VState :=
  match st.cut_value with
  | some cv =>
      addError { st with cut_value := none }
        ("cut present for member key " ++ dispType1 cv ++ ". expected type " ++
          ident ++ ", got " ++ reprValue st.cbor)
  | none =>
      addError st ("expected type " ++ ident ++ ", got " ++ reprValue st.cbor)

/-- The `*`/`+` member-key-by-type collection of `visit_identifier`: gather
the values of all unvalidated keys of the matching kind into
`values_to_validate`, reporting the keys of the wrong kind. -/
def collectKind (st : VState) (ident : String) (m : List (Value × Value))
    (pred : Value → Bool) : VState :=
  let step := fun (acc : List String × List Value) (kv : Value × Value) =>
    match st.validated_keys with
    | some keys =>
        if !valueMem kv.1 keys then
          if pred kv.1 then (acc.1, acc.2 ++ [kv.2])
          else
            (acc.1 ++ ["key of type " ++ ident ++ " required, got " ++
              reprValue kv.1], acc.2)
        else acc
    | none =>
        if pred kv.1 then (acc.1, acc.2 ++ [kv.2])
        else
          (acc.1 ++ ["key of type " ++ ident ++ " required, got " ++
            reprValue kv.1], acc.2)
  let collected := m.foldl step ([], [])
  collected.1.foldl addError { st with values_to_validate := some collected.2 }

/-- The find-first member-key handling of `visit_identifier`: find the first
map entry whose key has the given kind, record the key as validated and hoist
its value. -/
def findKind (st : VState) (ident : String) (m : List (Value × Value))
    (pred : Value → Bool) : VState :=
  match m.find? (fun kv => pred kv.1) with
  | some kv =>
      { st with
          validated_keys := pushValidatedKey st.validated_keys kv.1
          object_value := some kv.2
          cbor_location := st.cbor_location ++ "/" ++ reprValue kv.2 }
  | none => addError st ("map requires entry key of type " ++ ident)

/-- Replace the first generic-rule registration with the given name. -/
def updateFirstGeneric (grs : List GenericRule) (name : String)
    (f : GenericRule → GenericRule) : List GenericRule :=
  match grs with
  | [] => []
  | g :: rest =>
      if g.name == name then f g :: rest
      else g :: updateFirstGeneric rest name f

/-- The generic-parameter registration performed on entering a parameterized
rule: update the params of an existing registration of the same name, or push
a fresh one with empty arguments. -/
def registerGeneric (grs : List GenericRule) (name : String)
    (gp : List String) : List GenericRule :=
  if grs.any (fun g => g.name == name) then
    updateFirstGeneric grs name (fun g => { g with params := gp })
  else grs ++ [{ name := name, params := gp, args := [] }]

/-- The generic-parameter lookup of `visit_identifier`: scan the parameters
with their index and return the argument at the first index whose parameter
matches and has an argument (continuing the scan otherwise). -/
def findParamArgAux : Nat → List String → List Type1 → String → Option Type1
  | _, [], _, _ => none
  | idx, p :: ps, args, ident =>
      if p == ident then
        match args.get? idx with
        | some arg => some arg
        | none => findParamArgAux (idx + 1) ps args ident
      else findParamArgAux (idx + 1) ps args ident

/-- Message selectors for the shared array-occurrence walk: the four array
branches of `visit_range`, `visit_type2` (map type against an array),
`visit_identifier` and `visit_value` are identical in the source up to the
error messages, selected by this tag. -/
inductive ArrMsg where
  | range (lower : Type2) (upper : Type2) (inc : Bool) : ArrMsg
  | mapObj (g : Group) : ArrMsg
  | identM (id : String) : ArrMsg
  | valueM (v : TokenValue) : ArrMsg

/-- The error reported when a positionally walked array has no item at the
entry index. -/
def arrMissingMsg (msg : ArrMsg) (idx : Nat) (st : VState) : VState :=
  match msg with
  | .range _ _ _ =>
      addError st ("expected array item at index " ++ toString idx)
  | .mapObj g =>
      addError st ("expected map object " ++ dispGroup g ++ " at index " ++
        toString idx)
  | .identM id =>
      addError st ("expected type " ++ id ++ " at index " ++ toString idx)
  | .valueM v =>
      addError st ("expected value " ++ dispTokenValue v ++ " at index " ++
        toString idx)

/-- The error reported when an array is walked positionally but no group-entry
index is in effect. -/
def arrNoIndexMsg (msg : ArrMsg) (st : VState) : VState :=
  match msg with
  | .range lower upper inc =>
      addError st ("expected range lower " ++ dispType2 lower ++ " upper " ++
        dispType2 upper ++ " inclusive " ++ toString inc ++ ", got " ++
        reprValue st.cbor)
  | .mapObj g =>
      addError st ("expected map object " ++ dispGroup g ++ ", got " ++
        reprValue st.cbor)
  | .identM id =>
      addError st ("expected type " ++ id ++ ", got " ++ reprValue st.cbor)
  | .valueM v =>
      addError st ("expected value " ++ dispTokenValue v ++ ", got " ++
        reprValue st.cbor)

/-- The visitor methods of the validation engine, as one call type for the
fuel-indexed interpreter.  The `…Loop` constructors encode the `for` loops of
the source; a loop that truncates the error list back to a snapshot taken at
function entry carries `acc`, the number of errors accumulated since that
snapshot (the source compares absolute lengths; the relative count is the
same data since the snapshot equals the current length minus `acc`). -/
inductive Call where
  | VRule (r : Rule) : Call
  | VTypeRule (tr : TypeRule) : Call
  | VTypeRuleLoop (acc : Nat) (ts : List Ty) : Call
  | VGroupRule (gr : GroupRule) : Call
  | VGroupRuleLoop (acc : Nat) (ges : List GroupEntry) : Call
  | VType (t : Ty) : Call
  | VTypeLoop (acc : Nat) (tcs : List Type1) : Call
  | VType1 (t1 : Type1) : Call
  | VType2 (t2 : Type2) : Call
  | VRange (lower : Type2) (upper : Type2) (isInclusive : Bool) : Call
  | VControl (target : Type2) (ctrl : String) (controller : Type2) : Call
  | VIdentifier (ident : String) : Call
  | VGroup (g : Group) : Call
  | VGroupLoop (acc : Nat) (gcs : List GroupChoice) : Call
  | VGroupChoice (gc : GroupChoice) : Call
  | VEnumLoop (acc : Nat) (tcs : List Type1) : Call
  | VEntriesLoop (idx : Nat) (ges : List GroupEntry) : Call
  | VGroupEntry (ge : GroupEntry) : Call
  | VVMKEntry (e : ValueMemberKeyEntry) : Call
  | VMemberkey (mk0 : MemberKey) : Call
  | VValue (value : TokenValue) : Call
  | VOccurrence (o : Occur) : Call
  | VArrayPolicy (inner : Call) (msg : ArrMsg) (a : List Value) : Call
  | VIterItems (inner : Call) (idx : Nat) (items : List Value) : Call
  | VMapKeyLoop (t2 : Type2) (withEC : Bool) (savedLoc : String)
      (entries : List (Value × Value)) : Call
  | VValuesLoop (t : Ty) (savedLoc : String) (hasOccur : Bool)
      (values : List Value) : Call

/-- One step of the validation visitor
(`impl Visitor for CBORValidator` in `src/validator/cbor.rs`), with the
recursive visits abstracted as `visit`.  Dispatch methods that the engine
does not override (`visit_rule`, `visit_type_choice`, `visit_type1`,
`visit_group_entry` and the walks of member keys) follow the default
grammar-order walk, modelled from the spec of the visitor framework. -/
def runStep (cddl : CDDL) (ext : ExternalChecks)
    (visit : Call → VState → Option VState) (c : Call) (st : VState) :
    Option VState :=
    match c with
    | .VRule r =>
        match r with
        | .TypeR tr => visit (.VTypeRule tr) st
        | .GroupR gr => visit (.VGroupRule gr) st
    | .VTypeRule tr =>
        let st1 :=
          match tr.genericParams with
          | none => st
          | some gp =>
              { st with generic_rules := registerGeneric st.generic_rules tr.name gp }
        visit
          (.VTypeRuleLoop 0 (type_choice_alternates_from_ident cddl tr.name)) st1
    | .VTypeRuleLoop acc ts =>
        match ts with
        | [] => some st
        | t :: rest =>
            let cur := st.errors.length
            match visit (.VType t) st with
            | none => none
            | some st1 =>
                if st1.errors.length == cur then
                  some { st1 with
                    errors := st1.errors.take (st1.errors.length - acc) }
                else
                  visit
                    (.VTypeRuleLoop (acc + (st1.errors.length - cur)) rest) st1
    | .VGroupRule gr =>
        let st1 :=
          match gr.genericParams with
          | none => st
          | some gp =>
              { st with generic_rules := registerGeneric st.generic_rules gr.name gp }
        visit
          (.VGroupRuleLoop 0 (group_choice_alternates_from_ident cddl gr.name)) st1
    | .VGroupRuleLoop acc ges =>
        match ges with
        | [] => some st
        | ge :: rest =>
            let cur := st.errors.length
            match visit (.VGroupEntry ge) st with
            | none => none
            | some st1 =>
                if st1.errors.length == cur then
                  some { st1 with
                    errors := st1.errors.take (st1.errors.length - acc) }
                else
                  visit
                    (.VGroupRuleLoop (acc + (st1.errors.length - cur)) rest) st1
    | .VType t =>
        let st1 :=
          if t.typeChoices.length > 1 then { st with is_multi_type_choice := true }
          else st
        visit (.VTypeLoop 0 t.typeChoices) st1
    | .VTypeLoop acc tcs =>
        match tcs with
        | [] => some st
        | tc :: rest =>
            let cur := st.errors.length
            match visit (.VType1 tc) st with
            | none => none
            | some st1 =>
                if st1.errors.length == cur then
                  some { st1 with
                    errors := st1.errors.take (st1.errors.length - acc) }
                else
                  visit
                    (.VTypeLoop (acc + (st1.errors.length - cur)) rest) st1
    | .VType1 t1 =>
        match t1 with
        | .mk t2 none => visit (.VType2 t2) st
        | .mk t2 (some (.rangeOp inc upper)) =>
            visit (.VRange t2 upper inc) st
        | .mk t2 (some (.ctlOp ctrl upper)) =>
            visit (.VControl t2 ctrl upper) st
    | .VType2 t2 =>
        match t2 with
        | .TextValue s => visit (.VValue (.TEXT s)) st
        | .IntValue i => visit (.VValue (.INT i)) st
        | .UintValue u => visit (.VValue (.UINT u)) st
        | .FloatValue f => visit (.VValue (.FLOAT f)) st
        | .ParenthesizedType pt => visit (.VType pt) st
        | .Typename ident => visit (.VIdentifier ident) st
        | .Any => some st
        | .Map group =>
            match st.cbor with
            | .Map m =>
                if st.is_member_key then
                  visit (.VMapKeyLoop (.Map group) false st.cbor_location m) st
                else
                  let mkeys := m.map Prod.fst
                  match visit (.VGroup group) st with
                  | none => none
                  | some st1 =>
                      let st2 :=
                        if st1.values_to_validate.isNone then
                          match st1.validated_keys with
                          | some keys =>
                              mkeys.foldl
                                (fun s k =>
                                  if valueMem k keys then s
                                  else addError s ("unexpected key " ++ reprValue k))
                                st1
                          | none => st1
                        else st1
                      some { st2 with is_cut_present := false, cut_value := none }
            | .Array a =>
                if st.is_member_key then some st
                else
                  visit
                    (.VArrayPolicy (.VGroup group) (.mapObj group) a) st
            | _ =>
                some (addError st
                  ("expected map object " ++ dispType2 t2 ++ ", got " ++
                    reprValue st.cbor))
        | .Array group =>
            match st.cbor with
            | .Array a =>
                if group.groupChoices.length == 1 &&
                    (match group.groupChoices.head? with
                     | some gc => gc.groupEntries.isEmpty
                     | none => false) &&
                    !a.isEmpty && !(st.ctrl == some Token.NE) then
                  some (addError st
                    ("expected empty array, got " ++ reprValue st.cbor))
                else
                  let ecs := group.groupChoices.map (entry_counts_from_group_choice cddl)
                  match visit (.VGroup group)
                      { st with entry_counts := some ecs } with
                  | none => none
                  | some st1 => some { st1 with entry_counts := none }
            | .Map m =>
                if st.is_member_key then
                  let ecs := group.groupChoices.map (entry_counts_from_group_choice cddl)
                  visit
                    (.VMapKeyLoop (.Array group) true st.cbor_location m)
                    { st with entry_counts := some ecs }
                else
                  some (addError st
                    ("expected array type, got " ++ reprValue st.cbor))
            | _ =>
                some (addError st
                  ("expected array type, got " ++ reprValue st.cbor))
    | .VRange lower upper inc =>
        match st.cbor with
        | .Array a =>
            visit
              (.VArrayPolicy (.VRange lower upper inc) (.range lower upper inc) a) st
        | _ =>
            match lower, upper with
            | .IntValue l, .IntValue u =>
                let errStr :=
                  if inc then
                    "expected integer to be in range " ++ toString l ++
                      " <= value <= " ++ toString u ++ ", got " ++ reprValue st.cbor
                  else
                    "expected integer to be in range " ++ toString l ++
                      " < value < " ++ toString u ++ ", got " ++ reprValue st.cbor
                match st.cbor with
                | .Integer i =>
                    if inc then
                      if i < l || i > u then some (addError st errStr) else some st
                    else
                      if i ≤ l || i ≥ u then some (addError st errStr) else some st
                | _ => some (addError st errStr)
            | .IntValue l, .UintValue u0 =>
                let u : Int := Int.ofNat u0
                let errStr :=
                  if inc then
                    "expected integer to be in range " ++ toString l ++
                      " <= value <= " ++ toString u0 ++ ", got " ++ reprValue st.cbor
                  else
                    "expected integer to be in range " ++ toString l ++
                      " < value < " ++ toString u0 ++ ", got " ++ reprValue st.cbor
                match st.cbor with
                | .Integer i =>
                    if inc then
                      if i < l || i > u then some (addError st errStr) else some st
                    else
                      if i ≤ l || i ≥ u then some (addError st errStr) else some st
                | _ => some (addError st errStr)
            | .IntValue _, _ =>
                some (addError st
                  ("invalid cddl range. upper value must be an integer type. got " ++
                    dispType2 upper))
            | .UintValue l, .UintValue u =>
                let errStr :=
                  if inc then
                    "expected uint to be in range " ++ toString l ++
                      " <= value <= " ++ toString u ++ ", got " ++ reprValue st.cbor
                  else
                    "expected uint to be in range " ++ toString l ++
                      " < value < " ++ toString u ++ ", got " ++ reprValue st.cbor
                match st.cbor with
                | .Integer i =>
                    if inc then
                      if i < Int.ofNat l || i > Int.ofNat u then
                        some (addError st errStr)
                      else some st
                    else
                      if i ≤ Int.ofNat l || i ≥ Int.ofNat u then
                        some (addError st errStr)
                      else some st
                | .Text s =>
                    match st.ctrl with
                    | some .SIZE =>
                        let len := strLen s
                        if inc then
                          if len < l || len > u then
                            some (addError st
                              ("expected \"" ++ s ++
                                "\" string length to be in the range " ++
                                toString l ++ " <= value <= " ++ toString u ++
                                ", got " ++ toString len))
                          else some st
                        else
                          if len ≤ l || len ≥ u then
                            some (addError st
                              ("expected \"" ++ s ++
                                "\" string length to be in the range " ++
                                toString l ++ " < value < " ++ toString u ++
                                ", got " ++ toString len))
                          else some st
                    | _ =>
                        some (addError st
                          ("string value cannot be validated against a range without the .size control operator"))
                | _ => some (addError st errStr)
            | .UintValue _, _ =>
                some (addError st
                  ("invalid cddl range. upper value must be a uint type. got " ++
                    dispType2 upper))
            | .FloatValue l, .FloatValue u =>
                let errStr :=
                  if inc then
                    "expected float to be in range " ++ toString l ++
                      " <= value <= " ++ toString u ++ ", got " ++ reprValue st.cbor
                  else
                    "expected float to be in range " ++ toString l ++
                      " < value < " ++ toString u ++ ", got " ++ reprValue st.cbor
                match st.cbor with
                | .Float f =>
                    if inc then
                      if f < l || f > u then some (addError st errStr) else some st
                    else
                      if f ≤ l || f ≥ u then some (addError st errStr) else some st
                | _ => some (addError st errStr)
            | .FloatValue _, _ =>
                some (addError st
                  ("invalid cddl range. upper value must be a float type. got " ++
                    dispType2 upper))
            | _, _ =>
                some (addError st
                  ("invalid cddl range. upper and lower values must be either integers or floats"))
    | .VControl target ctrl controller =>
        match lookup_control_from_str ctrl with
        | some .EQ =>
            match target with
            | .Typename ident =>
                if is_ident_string_data_type cddl ident ||
                    is_ident_numeric_data_type cddl ident then
                  visit (.VType2 controller) st
                else some st
            | .Array group =>
                match st.cbor with
                | .Array _ =>
                    let ecs := group.groupChoices.map (entry_counts_from_group_choice cddl)
                    match visit (.VType2 controller)
                        { st with entry_counts := some ecs } with
                    | none => none
                    | some st1 => some { st1 with entry_counts := none }
                | _ => some st
            | .Map _ =>
                match st.cbor with
                | .Map _ =>
                    match visit (.VType2 controller)
                        { st with ctrl := some .EQ, is_ctrl_map_equality := true } with
                    | none => none
                    | some st1 =>
                        some { st1 with ctrl := none, is_ctrl_map_equality := false }
                | _ => some st
            | _ =>
                some (addError st
                  ("target for .eq operator must be a string, numerical, array or map data type, got " ++
                    dispType2 target))
        | some .NE =>
            match target with
            | .Typename ident =>
                if is_ident_string_data_type cddl ident ||
                    is_ident_numeric_data_type cddl ident then
                  match visit (.VType2 controller)
                      { st with ctrl := some .NE } with
                  | none => none
                  | some st1 => some { st1 with ctrl := none }
                else some st
            | .Array _ =>
                match st.cbor with
                | .Array _ =>
                    match visit (.VType2 controller)
                        { st with ctrl := some .NE } with
                    | none => none
                    | some st1 => some { st1 with ctrl := none }
                | _ => some st
            | .Map _ =>
                match st.cbor with
                | .Map _ =>
                    match visit (.VType2 controller)
                        { st with ctrl := some .NE, is_ctrl_map_equality := true } with
                    | none => none
                    | some st1 =>
                        some { st1 with ctrl := none, is_ctrl_map_equality := false }
                | _ => some st
            | _ =>
                some (addError st
                  ("target for .ne operator must be a string, numerical, array or map data type, got " ++
                    dispType2 target))
        | some .LT | some .GT | some .GE | some .LE =>
            match target with
            | .Typename ident =>
                if is_ident_numeric_data_type cddl ident then
                  match visit (.VType2 controller)
                      { st with ctrl := lookup_control_from_str ctrl } with
                  | none => none
                  | some st1 => some { st1 with ctrl := none }
                else
                  some (addError st
                    ("target for .lt, .gt, .ge or .le operator must be a numerical data type, got " ++
                      dispType2 target))
            | _ =>
                some (addError st
                  ("target for .lt, .gt, .ge or .le operator must be a numerical data type, got " ++
                    dispType2 target))
        | some .SIZE =>
            match target with
            | .Typename ident =>
                if is_ident_string_data_type cddl ident ||
                    is_ident_uint_data_type cddl ident then
                  match visit (.VType2 controller)
                      { st with ctrl := some .SIZE } with
                  | none => none
                  | some st1 => some { st1 with ctrl := none }
                else
                  some (addError st
                    ("target for .size must a string or uint data type, got " ++
                      dispType2 target))
            | _ =>
                some (addError st
                  ("target for .size must a string or uint data type, got " ++
                    dispType2 target))
        | some .AND =>
            match visit (.VType2 target) { st with ctrl := some .AND } with
            | none => none
            | some st1 =>
                match visit (.VType2 controller) st1 with
                | none => none
                | some st2 => some { st2 with ctrl := none }
        | some .WITHIN =>
            let st0 := { st with ctrl := some .WITHIN }
            let errorCount := st0.errors.length
            match visit (.VType2 target) st0 with
            | none => none
            | some st1 =>
                let noErrors := st1.errors.length == errorCount
                match visit (.VType2 controller) st1 with
                | none => none
                | some st2 =>
                    let st3 :=
                      if noErrors && decide (errorCount < st2.errors.length) then
                        addError { st2 with errors := st2.errors.take errorCount }
                          ("expected type " ++ dispType2 target ++ " .within type " ++
                            dispType2 controller ++ ", got " ++ reprValue st2.cbor)
                      else st2
                    some { st3 with ctrl := none }
        | some .DEFAULT =>
            let st0 := { st with ctrl := some .DEFAULT }
            let errorCount := st0.errors.length
            match visit (.VType2 target) st0 with
            | none => none
            | some st1 =>
                let st2 :=
                  if st1.errors.length != errorCount then
                    let occTaken := st1.occurrence
                    let st1a := { st1 with occurrence := none }
                    match occTaken with
                    | some .optional =>
                        addError st1a
                          ("expected default value " ++ dispType2 controller ++
                            ", got " ++ reprValue st1a.cbor)
                    | _ => st1a
                  else st1
                some { st2 with ctrl := none }
        | some .REGEXP | some .PCRE =>
            let st0 := { st with ctrl := lookup_control_from_str ctrl }
            match target with
            | .Typename ident =>
                if is_ident_string_data_type cddl ident then
                  match st0.cbor with
                  | .Text _ =>
                      match visit (.VType2 controller) st0 with
                      | none => none
                      | some st1 => some { st1 with ctrl := none }
                  | _ =>
                      some { (addError st0
                        (".regexp/.pcre control can only be matched against cbor string, got " ++
                          reprValue st0.cbor)) with ctrl := none }
                else
                  some { (addError st0
                    (".regexp/.pcre contro9l can only be matched against string data type, got " ++
                      dispType2 target)) with ctrl := none }
            | _ =>
                some { (addError st0
                  (".regexp/.pcre contro9l can only be matched against string data type, got " ++
                    dispType2 target)) with ctrl := none }
        | _ =>
            some (addError st ("unsupported control operator " ++ ctrl))
    | .VIdentifier ident =>
        let genArg : Option Type1 :=
          match st.eval_generic_rule with
          | none => none
          | some name =>
              match st.generic_rules.find? (fun g => g.name == name) with
              | none => none
              | some gr => findParamArgAux 0 gr.params gr.args ident
        match genArg with
        | some arg => visit (.VType1 arg) st
        | none =>
            match rule_from_ident cddl ident with
            | some r => visit (.VRule r) st
            | none =>
                if is_ident_any_type cddl ident then some st
                else
                  match st.cbor with
                  | .Null =>
                      if is_ident_null_data_type cddl ident then some st
                      else some (identFallback st ident)
                  | .Bytes _ =>
                      if is_ident_byte_string_data_type cddl ident then some st
                      else some (identFallback st ident)
                  | .Bool b =>
                      if is_ident_bool_data_type cddl ident then some st
                      else if ident_matches_bool_value cddl ident b then some st
                      else
                        some (addError st
                          ("expected type " ++ ident ++ ", got " ++ reprValue st.cbor))
                  | .Integer i =>
                      if is_ident_uint_data_type cddl ident then
                        if i < 0 then
                          some (addError st
                            ("expected type " ++ ident ++ ", got " ++ reprValue st.cbor))
                        else some st
                      else if is_ident_integer_data_type cddl ident then some st
                      else if is_ident_time_data_type cddl ident then
                        if !ext.timestampIntValid i then
                          some (addError st
                            ("expected time data type, invalid UNIX timestamp " ++
                              toString i))
                        else some st
                      else
                        some (addError st
                          ("expected type " ++ ident ++ ", got " ++ reprValue st.cbor))
                  | .Float f =>
                      if is_ident_float_data_type cddl ident then some st
                      else if is_ident_time_data_type cddl ident then
                        if !ext.timestampFloatValid f then
                          some (addError st
                            ("expected time data type, invalid UNIX timestamp " ++
                              toString f))
                        else some st
                      else
                        some (addError st
                          ("expected type " ++ ident ++ ", got " ++ reprValue st.cbor))
                  | .Text s =>
                      if is_ident_uri_data_type cddl ident then
                        if !ext.uriValid s then
                          some (addError st
                            ("expected URI data type, decoding error: invalid"))
                        else some st
                      else if is_ident_b64url_data_type cddl ident then
                        if !ext.b64urlValid s then
                          some (addError st
                            ("expected base64 URL data type, decoding error: invalid"))
                        else some st
                      else if is_ident_tdate_data_type cddl ident then
                        if !ext.tdateValid s then
                          some (addError st
                            ("expected tdate data type, decoding error: invalid"))
                        else some st
                      else if is_ident_string_data_type cddl ident then some st
                      else
                        some (addError st
                          ("expected type " ++ ident ++ ", got " ++ reprValue st.cbor))
                  | .Array a =>
                      if st.is_member_key then some st
                      else
                        visit
                          (.VArrayPolicy (.VIdentifier ident) (.identM ident) a) st
                  | .Map m =>
                      let occPart : Option VState :=
                        match st.occurrence with
                        | some .zeroOrMore =>
                            if is_ident_string_data_type cddl ident then
                              some (collectKind st ident m
                                (fun k => match k with | .Text _ => true | _ => false))
                            else if is_ident_integer_data_type cddl ident then
                              some (collectKind st ident m
                                (fun k => match k with | .Integer _ => true | _ => false))
                            else if is_ident_bool_data_type cddl ident then
                              some (collectKind st ident m
                                (fun k => match k with | .Bool _ => true | _ => false))
                            else if is_ident_byte_string_data_type cddl ident then
                              some (collectKind st ident m
                                (fun k => match k with | .Bytes _ => true | _ => false))
                            else if is_ident_null_data_type cddl ident then
                              some (collectKind st ident m
                                (fun k => match k with | .Null => true | _ => false))
                            else if is_ident_float_data_type cddl ident then
                              some (collectKind st ident m
                                (fun k => match k with | .Float _ => true | _ => false))
                            else none
                        | some .oneOrMore =>
                            if m.isEmpty then
                              some (addError st
                                ("map cannot be empty, one or more entries with key type " ++
                                  ident ++ " required"))
                            else if is_ident_string_data_type cddl ident then
                              some (collectKind st ident m
                                (fun k => match k with | .Text _ => true | _ => false))
                            else if is_ident_integer_data_type cddl ident then
                              some (collectKind st ident m
                                (fun k => match k with | .Integer _ => true | _ => false))
                            else if is_ident_bool_data_type cddl ident then
                              some (collectKind st ident m
                                (fun k => match k with | .Bool _ => true | _ => false))
                            else if is_ident_byte_string_data_type cddl ident then
                              some (collectKind st ident m
                                (fun k => match k with | .Bytes _ => true | _ => false))
                            else if is_ident_null_data_type cddl ident then
                              some (collectKind st ident m
                                (fun k => match k with | .Null => true | _ => false))
                            else if is_ident_float_data_type cddl ident then
                              some (collectKind st ident m
                                (fun k => match k with | .Float _ => true | _ => false))
                            else none
                        | _ => none
                      match occPart with
                      | some r => some r
                      | none =>
                          if is_ident_string_data_type cddl ident then
                            some (findKind st ident m
                              (fun k => match k with | .Text _ => true | _ => false))
                          else if is_ident_integer_data_type cddl ident then
                            some (findKind st ident m
                              (fun k => match k with | .Integer _ => true | _ => false))
                          else if is_ident_bool_data_type cddl ident then
                            some (findKind st ident m
                              (fun k => match k with | .Bool _ => true | _ => false))
                          else if is_ident_null_data_type cddl ident then
                            some (findKind st ident m
                              (fun k => match k with | .Null => true | _ => false))
                          else if is_ident_byte_string_data_type cddl ident then
                            some (findKind st ident m
                              (fun k => match k with | .Bytes _ => true | _ => false))
                          else if is_ident_float_data_type cddl ident then
                            -- the source matches `Value::Null` keys in this branch
                            some (findKind st ident m
                              (fun k => match k with | .Null => true | _ => false))
                          else
                            visit (.VValue (.TEXT ident)) st
    | .VGroup g =>
        let st0 :=
          if g.groupChoices.length > 1 then { st with is_multi_group_choice := true }
          else st
        let early : Option VState :=
          if st0.is_ctrl_map_equality then
            match st0.ctrl with
            | some t =>
                match st0.cbor with
                | .Map m =>
                    let ecs := g.groupChoices.map (entry_counts_from_group_choice cddl)
                    let len := m.length
                    if t == Token.EQ then
                      if !validate_entry_count ecs len then
                        some (ecs.foldl (fun s ec => addError s (entryCountErr ec len)) st0)
                      else none
                    else if t == Token.NE then
                      if !validate_entry_count ecs len then
                        some (ecs.foldl (fun s ec => addError s (entryCountErr ec len)) st0)
                      else none
                    else none
                | _ => none
            | none => none
          else none
        match early with
        | some r => some r
        | none =>
            visit (.VGroupLoop 0 g.groupChoices)
              { st0 with is_ctrl_map_equality := false }
    | .VGroupLoop acc gcs =>
        match gcs with
        | [] => some st
        | gc :: rest =>
            let cur := st.errors.length
            match visit (.VGroupChoice gc) st with
            | none => none
            | some st1 =>
                if st1.errors.length == cur then
                  some { st1 with
                    errors := st1.errors.take (st1.errors.length - acc) }
                else
                  visit
                    (.VGroupLoop (acc + (st1.errors.length - cur)) rest) st1
    | .VGroupChoice gc =>
        if st.is_group_to_choice_enum then
          visit (.VEnumLoop 0 (type_choices_from_group_choice cddl gc)) st
        else
          visit (.VEntriesLoop 0 gc.groupEntries) st
    | .VEnumLoop acc tcs =>
        match tcs with
        | [] => some st
        | tc :: rest =>
            let cur := st.errors.length
            match visit (.VType1 tc) st with
            | none => none
            | some st1 =>
                if st1.errors.length == cur then
                  some { st1 with
                    errors := st1.errors.take (st1.errors.length - acc) }
                else
                  visit
                    (.VEnumLoop (acc + (st1.errors.length - cur)) rest) st1
    | .VEntriesLoop idx ges =>
        match ges with
        | [] => some st
        | ge :: rest =>
            match visit (.VGroupEntry ge)
                { st with group_entry_idx := some idx } with
            | none => none
            | some st1 => visit (.VEntriesLoop (idx + 1) rest) st1
    | .VGroupEntry ge =>
        match ge with
        | .ValueMemberKey e => visit (.VVMKEntry e) st
    | .VVMKEntry e =>
        let step1 : Option VState :=
          match e.occur with
          | some o => visit (.VOccurrence o) st
          | none => some st
        match step1 with
        | none => none
        | some sta =>
            let currentLocation := sta.cbor_location
            let mkStep : Option (Bool × VState) :=
              match e.memberKey with
              | some mk0 =>
                  let errorCount := sta.errors.length
                  match visit (.VMemberkey mk0)
                      { sta with is_member_key := true } with
                  | none => none
                  | some st1 =>
                      let st2 := { st1 with is_member_key := false }
                      if st2.errors.length != errorCount then
                        some (true, { st2 with advance_to_next_entry := true })
                      else some (false, st2)
              | none => some (false, sta)
            match mkStep with
            | none => none
            | some (true, stb) => some stb
            | some (false, stb) =>
                match stb.values_to_validate with
                | some values =>
                    visit
                      (.VValuesLoop e.entryType currentLocation e.occur.isSome values)
                      stb
                | none =>
                    let ov := stb.object_value
                    let stc := { stb with object_value := none }
                    match ov with
                    | some v =>
                        match visit (.VType e.entryType) (childEntry stc v) with
                        | none => none
                        | some cv =>
                            let st1 := { stc with
                              cbor_location := currentLocation
                              errors := stc.errors ++ cv.errors
                              hard_error := orHard stc.hard_error cv.hard_error }
                            some (if e.occur.isSome then { st1 with occurrence := none }
                              else st1)
                    | none =>
                        if !stc.advance_to_next_entry then
                          visit (.VType e.entryType) stc
                        else some stc
    | .VMemberkey mk0 =>
        let st0 :=
          match mk0 with
          | .Type1M _ isCut => { st with is_cut_present := isCut }
          | _ => st
        match mk0 with
        | .Type1M t1 _ => visit (.VType1 t1) st0
        | .Bareword id => visit (.VIdentifier id) st0
        | .ValueM v => visit (.VValue v) st0
    | .VValue value =>
        match st.cbor with
        | .Integer i =>
            match value with
            | .INT v =>
                let errO : Option String :=
                  match st.ctrl with
                  | some .NE =>
                      if i != v then none
                      else some ("expected value .ne " ++ toString v ++ ", got " ++ toString i)
                  | some .LT =>
                      if i < v then none
                      else some ("expected value .lt " ++ toString v ++ ", got " ++ toString i)
                  | some .LE =>
                      if i ≤ v then none
                      else some ("expected value .le " ++ toString v ++ ", got " ++ toString i)
                  | some .GT =>
                      if i > v then none
                      else some ("expected value .gt " ++ toString v ++ ", got " ++ toString i)
                  | some .GE =>
                      if i ≥ v then none
                      else some ("expected value .ge " ++ toString v ++ ", got " ++ toString i)
                  | none =>
                      if i == v then none
                      else some ("expected value " ++ toString v ++ ", got " ++ toString i)
                  | some t =>
                      some ("expected value " ++ dispToken t ++ " " ++ toString v ++
                        ", got " ++ toString i)
                match errO with
                | some e => some (addError st e)
                | none => some st
            | .UINT v =>
                let errO : Option String :=
                  match st.ctrl with
                  | some .NE =>
                      if i != Int.ofNat v then none
                      else some ("expected value .ne " ++ toString v ++ ", got " ++ toString i)
                  | some .LT =>
                      if i < Int.ofNat v then none
                      else some ("expected value .lt " ++ toString v ++ ", got " ++ toString i)
                  | some .LE =>
                      if i ≤ Int.ofNat v then none
                      else some ("expected value .le " ++ toString v ++ ", got " ++ toString i)
                  | some .GT =>
                      if i > Int.ofNat v then none
                      else some ("expected value .gt " ++ toString v ++ ", got " ++ toString i)
                  | some .GE =>
                      if i ≥ Int.ofNat v then none
                      else some ("expected value .ge " ++ toString v ++ ", got " ++ toString i)
                  | some .SIZE =>
                      if i < (256 : Int) ^ v then none
                      else some ("expected value .size " ++ toString v ++ ", got " ++ toString i)
                  | none =>
                      if i == Int.ofNat v then none
                      else some ("expected value " ++ toString v ++ ", got " ++ toString i)
                  | some t =>
                      some ("expected value " ++ dispToken t ++ " " ++ toString v ++
                        ", got " ++ toString i)
                match errO with
                | some e => some (addError st e)
                | none => some st
            | _ =>
                some (addError st
                  ("expected " ++ dispTokenValue value ++ ", got " ++ toString i))
        | .Float f =>
            match value with
            | .FLOAT v =>
                let errO : Option String :=
                  match st.ctrl with
                  | some .NE =>
                      if abs (f - v) > f64Epsilon then none
                      else some ("expected value .ne " ++ toString v ++ ", got " ++ toString f)
                  | some .LT =>
                      if f < v then none
                      else some ("expected value .lt " ++ toString v ++ ", got " ++ toString f)
                  | some .LE =>
                      if f ≤ v then none
                      else some ("expected value .le " ++ toString v ++ ", got " ++ toString f)
                  | some .GT =>
                      if f > v then none
                      else some ("expected value .gt " ++ toString v ++ ", got " ++ toString f)
                  | some .GE =>
                      if f ≥ v then none
                      else some ("expected value .ge " ++ toString v ++ ", got " ++ toString f)
                  | none =>
                      if abs (f - v) < f64Epsilon then none
                      else some ("expected value " ++ toString v ++ ", got " ++ toString f)
                  | some t =>
                      some ("expected value " ++ dispToken t ++ " " ++ toString v ++
                        ", got " ++ toString f)
                match errO with
                | some e => some (addError st e)
                | none => some st
            | _ =>
                some (addError st
                  ("expected " ++ dispTokenValue value ++ ", got " ++ toString f))
        | .Text s =>
            match value with
            | .TEXT t =>
                match st.ctrl with
                | some .NE =>
                    if s != t then some st
                    else
                      some (addError st
                        ("expected " ++ dispTokenValue value ++ " .ne to \"" ++ s ++ "\""))
                | some .REGEXP =>
                    match ext.regexCompile t with
                    | some msg =>
                        some { st with hard_error := some (mkErrOf st msg) }
                    | none =>
                        if ext.regexMatches t s then some st
                        else
                          some (addError st
                            ("expected \"" ++ s ++ "\" to match regex \"" ++ t ++ "\""))
                | some .PCRE =>
                    match ext.regexCompile t with
                    | some msg =>
                        some { st with hard_error := some (mkErrOf st msg) }
                    | none =>
                        if ext.regexMatches t s then some st
                        else
                          some (addError st
                            ("expected \"" ++ s ++ "\" to match regex \"" ++ t ++ "\""))
                | _ =>
                    if s == t then some st
                    else
                      match st.ctrl with
                      | some c =>
                          some (addError st
                            ("expected value " ++ dispToken c ++ " " ++
                              dispTokenValue value ++ ", got \"" ++ s ++ "\""))
                      | none =>
                          some (addError st
                            ("expected value " ++ dispTokenValue value ++
                              " got \"" ++ s ++ "\""))
            | .UINT u =>
                match st.ctrl with
                | some .SIZE =>
                    if strLen s == u then some st
                    else
                      some (addError st
                        ("expected \"" ++ s ++ "\" .size " ++ toString u ++
                          ", got " ++ toString (strLen s)))
                | _ =>
                    some (addError st
                      ("expected " ++ toString u ++ ", got " ++ s))
            | .BYTE (.UTF8 b) =>
                if strBytes s == b then some st
                else
                  some (addError st
                    ("expected " ++ dispTokenValue value ++ ", got \"" ++ s ++ "\""))
            | .BYTE (.B16 b) =>
                if strBytes s == b then some st
                else
                  some (addError st
                    ("expected " ++ dispTokenValue value ++ ", got \"" ++ s ++ "\""))
            | .BYTE (.B64 b) =>
                if strBytes s == b then some st
                else
                  some (addError st
                    ("expected " ++ dispTokenValue value ++ ", got \"" ++ s ++ "\""))
            | _ =>
                some (addError st
                  ("expected " ++ dispTokenValue value ++ ", got \"" ++ s ++ "\""))
        | .Array a =>
            if st.is_member_key then some st
            else
              visit (.VArrayPolicy (.VValue value) (.valueM value) a) st
        | .Map o =>
            let st0 :=
              if st.is_cut_present then { st with cut_value := some (type1FromValue value) }
              else st
            if value == TokenValue.TEXT "any" then some st0
            else
              let k := token_value_into_cbor_value value
              match mapGet o k with
              | some v =>
                  some { st0 with
                    validated_keys := pushValidatedKey st0.validated_keys k
                    object_value := some v
                    cbor_location := st0.cbor_location ++ "/" ++ dispTokenValue value }
              | none =>
                  let occTaken := st0.occurrence
                  let st1 := { st0 with occurrence := none }
                  match occTaken with
                  | some .optional => some { st1 with advance_to_next_entry := true }
                  | some .zeroOrMore => some { st1 with advance_to_next_entry := true }
                  | _ =>
                      match st1.ctrl with
                      | some .NE => some st1
                      | _ =>
                          some (addError st1
                            ("object missing key: \"" ++ dispTokenValue value ++ "\""))
        | _ =>
            some (addError st
              ("expected " ++ dispTokenValue value ++ ", got " ++ reprValue st.cbor))
    | .VOccurrence o => some { st with occurrence := some o }
    | .VArrayPolicy inner msg a =>
        let allowEmpty := st.occurrence == some Occur.optional
        match validate_array_occurrence st.occurrence a with
        | .error e => some (addError st e)
        | .ok iterItems =>
            let checked : VState × Bool :=
              if !iterItems && !allowEmpty then
                match st.entry_counts with
                | some ecs =>
                    let st1 := { st with entry_counts := none }
                    if !validate_entry_count ecs a.length then
                      (ecs.foldl (fun s ec => addError s (entryCountErr ec a.length)) st1,
                        true)
                    else (st1, false)
                | none => (st, false)
              else (st, false)
            let st0 := checked.1
            if checked.2 then some st0
            else if iterItems then visit (.VIterItems inner 0 a) st0
            else
              match st0.group_entry_idx with
              | some idx =>
                  let st1 := { st0 with group_entry_idx := none }
                  match a.get? idx with
                  | some v =>
                      match visit inner (childArray st1 v idx) with
                      | none => none
                      | some cv =>
                          some { st1 with
                            errors := st1.errors ++ cv.errors
                            hard_error := orHard st1.hard_error cv.hard_error }
                  | none =>
                      if !allowEmpty then some (arrMissingMsg msg idx st1)
                      else some st1
              | none => some (arrNoIndexMsg msg st0)
    | .VIterItems inner idx items =>
        match items with
        | [] => some st
        | v :: rest =>
            match visit inner (childArray st v idx) with
            | none => none
            | some cv =>
                visit (.VIterItems inner (idx + 1) rest)
                  { st with
                    errors := st.errors ++ cv.errors
                    hard_error := orHard st.hard_error cv.hard_error }
    | .VMapKeyLoop t2 withEC savedLoc entries =>
        match entries with
        | [] =>
            if withEC then some { st with entry_counts := none } else some st
        | (k, v) :: rest =>
            let cv0 := if withEC then childKeyEC st k else childEntry st k
            match visit (.VType2 t2) cv0 with
            | none => none
            | some cvr =>
                if cvr.errors.isEmpty then
                  some { st with
                    object_value := some v
                    validated_keys := pushValidatedKey st.validated_keys k
                    cbor_location := savedLoc
                    hard_error := orHard st.hard_error cvr.hard_error }
                else
                  visit (.VMapKeyLoop t2 withEC savedLoc rest)
                    { st with
                      errors := st.errors ++ cvr.errors
                      hard_error := orHard st.hard_error cvr.hard_error }
    | .VValuesLoop t savedLoc hasOccur values =>
        match values with
        | [] => some st
        | v :: rest =>
            match visit (.VType t) (childEntry st v) with
            | none => none
            | some cvr =>
                let st1 := { st with
                  cbor_location := savedLoc
                  errors := st.errors ++ cvr.errors
                  hard_error := orHard st.hard_error cvr.hard_error }
                let st2 := if hasOccur then { st1 with occurrence := none } else st1
                visit (.VValuesLoop t savedLoc hasOccur rest) st2

/-- The fuel-indexed interpreter of the validation visitor: `runStep` tied
with an explicit fuel.  `none` means the fuel was exhausted; the source has
no recursion guard, so a cyclic chain of rule references never completes for
any fuel. -/
def run (cddl : CDDL) (ext : ExternalChecks) :
    Nat → Call → VState → Option VState
  | 0, _, _ => none
  | n + 1, c, st => runStep cddl ext (fun c2 st2 => run cddl ext n c2 st2) c st

/-- Unfolding of the interpreter at a successor fuel. -/
theorem run_succ (cddl : CDDL) (ext : ExternalChecks) (n : Nat) (c : Call)
    (st : VState) :
    run cddl ext (n + 1) c st =
      runStep cddl ext (fun c2 st2 => run cddl ext n c2 st2) c st := rfl

/-- Unfolding of the interpreter at fuel zero. -/
theorem run_zero (cddl : CDDL) (ext : ExternalChecks) (c : Call) (st : VState) :
    run cddl ext 0 c st = none := rfl

/-- The rule loop of `CBORValidator::validate`: scan the rules in document
order; on the first type rule whose generic parameters are absent, visit it
and stop.  Returns `some none` when no such rule exists, `some (some st)`
with the post-visit state otherwise, and `none` when the visit ran out of
fuel. -/
def findRootVisit (cddl : CDDL) (ext : ExternalChecks) (fuel : Nat)
    (st : VState) : List Rule → Option (Option VState)
  | [] => some none
  | r :: rest =>
      match r with
      | .TypeR tr =>
          if tr.genericParams.isNone then
            match run cddl ext fuel (.VTypeRule tr) st with
            | none => none
            | some st1 => some (some st1)
          else findRootVisit cddl ext fuel st rest
      | .GroupR _ => findRootVisit cddl ext fuel st rest

/-- `CBORValidator::validate`: visit the first non-generic type rule; a hard
error raised during the visit is wrapped as the one-element list
`Error::Validation(vec![e])`, discarding the accumulated error list;
otherwise succeed iff the accumulated error list is empty, returning the
list otherwise.  `none` means the walk did not complete within the fuel (the
source recurses unboundedly there). -/
def validate (cddl : CDDL) (ext : ExternalChecks) (fuel : Nat) (cbor : Value) :
    Option (Except (List ValidationError) Unit) :=
  match findRootVisit cddl ext fuel (newValidator cbor) cddl.rules with
  | none => none
  | some ost =>
      let st := ost.getD (newValidator cbor)
      match st.hard_error with
      | some e => some (.error [e])
      | none =>
          if st.errors.isEmpty then some (.ok ()) else some (.error st.errors)

/-- The root-selection rule as the claims state it: the first type rule whose
generic-parameter list is absent, in document order; group rules and generic
type rules are skipped.  This definition follows the words of the spec and is
compared against the source-derived `validate` below. -/
def rootRuleSpec (cddl : CDDL) : Option TypeRule :=
  cddl.rules.findSome? (fun r =>
    match r with
    | .TypeR tr => if tr.genericParams.isNone then some tr else none
    | .GroupR _ => none)

/-- The rule loop of `validate` selects exactly the rule `rootRuleSpec`
names, and visits nothing when there is none. -/
theorem findRootVisit_eq (cddl : CDDL) (ext : ExternalChecks) (fuel : Nat)
    (st : VState) (rules : List Rule) :
    findRootVisit cddl ext fuel st rules =
      match rules.findSome? (fun r =>
        match r with
        | .TypeR tr => if tr.genericParams.isNone then some tr else none
        | .GroupR _ => none) with
      | none => some none
      | some tr =>
          match run cddl ext fuel (.VTypeRule tr) st with
          | none => none
          | some st1 => some (some st1) := by
  induction rules with
  | nil => simp [findRootVisit, List.findSome?]
  | cons r rest ih =>
      cases r with
      | TypeR tr =>
          by_cases h : tr.genericParams.isNone
          · have h2 : tr.genericParams = none := Option.isNone_iff_eq_none.mp h
            simp [findRootVisit, h, h2, List.findSome?_cons]
          · have h2 : ¬tr.genericParams = none := by
              simpa [Option.isNone_iff_eq_none] using h
            simp only [findRootVisit, h, if_false, List.findSome?_cons]
            simpa [h2] using ih
      | GroupR gr =>
          simp only [findRootVisit, List.findSome?_cons]
          simpa using ih

/-- `validate` characterized through the spec-side root selection: no
eligible rule means vacuous success, otherwise the result is determined by
the visit of that single rule. -/
theorem validate_eq_spec (cddl : CDDL) (ext : ExternalChecks) (fuel : Nat)
    (cbor : Value) :
    validate cddl ext fuel cbor =
      match rootRuleSpec cddl with
      | none => some (.ok ())
      | some tr =>
          match run cddl ext fuel (.VTypeRule tr) (newValidator cbor) with
          | none => none
          | some st =>
              match st.hard_error with
              | some e => some (.error [e])
              | none =>
                  if st.errors.isEmpty then some (.ok ())
                  else some (.error st.errors) := by
  unfold validate rootRuleSpec
  rw [findRootVisit_eq]
  cases hf : cddl.rules.findSome? (fun r =>
      match r with
      | .TypeR tr => if tr.genericParams.isNone then some tr else none
      | .GroupR _ => none) with
  | none => simp [newValidator]
  | some tr =>
      cases hr : run cddl ext fuel (.VTypeRule tr) (newValidator cbor) with
      | none => simp [hr]
      | some st => simp [hr]

/-- Whether a validation result is a success. -/
def isOkRes (r : Option (Except (List ValidationError) Unit)) : Bool :=
  match r with
  | some (.ok _) => true
  | _ => false

/-- The reasons of a validation result: `some []` on success, the error
reasons on failure, `none` when the walk did not complete. -/
def resReasons (r : Option (Except (List ValidationError) Unit)) :
    Option (List String) :=
  match r with
  | none => none
  | some (.ok _) => some []
  | some (.error l) => some (l.map (fun e => e.reason))

/-- A typename as a type1, for concrete schemas. -/
def t1Ident (s : String) : Type1 := .mk (.Typename s) none

/-- A typename as a one-choice type, for concrete schemas. -/
def tyIdent (s : String) : Ty := .mk [t1Ident s]

/-- A root type rule with the given type choices. -/
def rootTR (tcs : List Type1) : TypeRule :=
  { name := "root"
    genericParams := none
    isTypeChoiceAlternate := false
    value := .mk tcs }

/-- A document consisting of a single root type rule. -/
def rootCDDL (tcs : List Type1) : CDDL := ⟨[.TypeR (rootTR tcs)]⟩

/-- The empty document. -/
def cddlEmpty : CDDL := ⟨[]⟩

/-- C2: for every CDDL document that has a type rule without generic
parameters, validation is decided by exactly the first such rule in document
order (group rules and generic type rules appearing earlier are skipped), and
no later rule acts as the root: `validate` equals the outcome of visiting
that one rule — a hard error raised in the visit wrapped as its one-element
list, otherwise success iff the accumulated list is empty. -/
theorem C2_first_nongeneric_type_rule_is_root (cddl : CDDL)
    (ext : ExternalChecks) (fuel : Nat) (cbor : Value) (tr : TypeRule)
    (hroot : rootRuleSpec cddl = some tr) :
    validate cddl ext fuel cbor =
      match run cddl ext fuel (.VTypeRule tr) (newValidator cbor) with
      | none => none
      | some st =>
          match st.hard_error with
          | some e => some (.error [e])
          | none =>
              if st.errors.isEmpty then some (.ok ())
              else some (.error st.errors) := by
  have h := validate_eq_spec cddl ext fuel cbor
  simpa only [hroot] using h

/-- C2 witness document: a group rule, then a generic type rule, then the
type rule `a = tstr`, then the type rule `b = int`.  The root is `a`. -/
def cddlC2w : CDDL :=
  ⟨[.GroupR
      { name := "g"
        genericParams := none
        isGroupChoiceAlternate := false
        entry := .ValueMemberKey (.mk none none (tyIdent "int")) },
    .TypeR
      { name := "t"
        genericParams := some ["T"]
        isTypeChoiceAlternate := false
        value := tyIdent "T" },
    .TypeR
      { name := "a"
        genericParams := none
        isTypeChoiceAlternate := false
        value := tyIdent "tstr" },
    .TypeR
      { name := "b"
        genericParams := none
        isTypeChoiceAlternate := false
        value := tyIdent "int" }]⟩

/-- The error of the C2 witness: the root rule `a = tstr` decides the
outcome even though the later rule `b = int` would match. -/
def errC2w : ValidationError :=
  { reason := "expected type tstr, got Integer(7)"
    cddl_location := ""
    cbor_location := ""
    is_multi_type_choice := false
    is_multi_group_choice := false
    is_group_to_choice_enum := false
    type_group_name_entry := none }

theorem C2_witness :
    validate cddlC2w extTrivial 20 (.Integer 7) = some (.error [errC2w]) := by
  have h := C2_first_nongeneric_type_rule_is_root cddlC2w extTrivial 20
    (.Integer 7)
    { name := "a"
      genericParams := none
      isTypeChoiceAlternate := false
      value := tyIdent "tstr" } rfl
  rw [h]
  rfl

/-- C10: for every CDDL document containing no type rule without generic
parameters (for example only group rules or only generic type rules),
`CBORValidator::validate` returns `Ok ()` for every CBOR data value: no rule
is visited and validation vacuously succeeds. -/
theorem C10_vacuous_success_without_root (cddl : CDDL) (ext : ExternalChecks)
    (fuel : Nat) (cbor : Value)
    (h : ∀ tr : TypeRule, Rule.TypeR tr ∈ cddl.rules → tr.genericParams ≠ none) :
    validate cddl ext fuel cbor = some (.ok ()) := by
  have hroot : rootRuleSpec cddl = none := by
    unfold rootRuleSpec
    rw [List.findSome?_eq_none_iff]
    intro r hr
    cases r with
    | TypeR tr =>
        have hne := h tr hr
        simp [Option.isNone_iff_eq_none, hne]
    | GroupR gr => rfl
  have hc := validate_eq_spec cddl ext fuel cbor
  simpa [hroot] using hc

/-- C10 witness document: one group rule and one generic type rule. -/
def cddlC10w : CDDL :=
  ⟨[.GroupR
      { name := "g"
        genericParams := none
        isGroupChoiceAlternate := false
        entry := .ValueMemberKey (.mk none none (tyIdent "int")) },
    .TypeR
      { name := "t"
        genericParams := some ["T"]
        isTypeChoiceAlternate := false
        value := tyIdent "T" }]⟩

theorem C10_witness :
    validate cddlC10w extTrivial 20 (.Integer 5) = some (.ok ()) := by
  apply C10_vacuous_success_without_root
  intro tr htr
  simp only [cddlC10w, List.mem_cons, List.not_mem_nil, or_false] at htr
  rcases htr with h | h
  · exact absurd h (by simp)
  · cases h
    simp

/-- The cyclic document `a = b  b = a`: rule `a`. -/
def trA9 : TypeRule :=
  { name := "a"
    genericParams := none
    isTypeChoiceAlternate := false
    value := tyIdent "b" }

/-- The cyclic document `a = b  b = a`: rule `b`. -/
def trB9 : TypeRule :=
  { name := "b"
    genericParams := none
    isTypeChoiceAlternate := false
    value := tyIdent "a" }

/-- The cyclic document `a = b  b = a`. -/
def cddlC9 : CDDL := ⟨[.TypeR trA9, .TypeR trB9]⟩

/-- One tour of the cycle starting at rule `a`: eight interpreter steps lead
back to the visit of rule `b` in the same state, so fuel exhaustion
propagates. -/
theorem c9_chainA (ext : ExternalChecks) (m : Nat) (v : Value)
    (h : run cddlC9 ext m (.VTypeRule trB9) (newValidator v) = none) :
    run cddlC9 ext (m + 8) (.VTypeRule trA9) (newValidator v) = none := by
  have h4 : run cddlC9 ext (m + 4) (.VType1 (t1Ident "b")) (newValidator v) = none := h
  have h5 : run cddlC9 ext (m + 5) (.VTypeLoop 0 [t1Ident "b"]) (newValidator v) = none := by
    show run cddlC9 ext ((m + 4) + 1) (.VTypeLoop 0 [t1Ident "b"]) (newValidator v) = none
    rw [run_succ]
    simp only [runStep, h4]
  have h6 : run cddlC9 ext (m + 6) (.VType (tyIdent "b")) (newValidator v) = none := h5
  have h7 : run cddlC9 ext (m + 7)
      (.VTypeRuleLoop 0 [tyIdent "b"]) (newValidator v) = none := by
    show run cddlC9 ext ((m + 6) + 1)
      (.VTypeRuleLoop 0 [tyIdent "b"]) (newValidator v) = none
    rw [run_succ]
    simp only [runStep, h6]
  exact h7

/-- One tour of the cycle starting at rule `b`. -/
theorem c9_chainB (ext : ExternalChecks) (m : Nat) (v : Value)
    (h : run cddlC9 ext m (.VTypeRule trA9) (newValidator v) = none) :
    run cddlC9 ext (m + 8) (.VTypeRule trB9) (newValidator v) = none := by
  have h4 : run cddlC9 ext (m + 4) (.VType1 (t1Ident "a")) (newValidator v) = none := h
  have h5 : run cddlC9 ext (m + 5) (.VTypeLoop 0 [t1Ident "a"]) (newValidator v) = none := by
    show run cddlC9 ext ((m + 4) + 1) (.VTypeLoop 0 [t1Ident "a"]) (newValidator v) = none
    rw [run_succ]
    simp only [runStep, h4]
  have h6 : run cddlC9 ext (m + 6) (.VType (tyIdent "a")) (newValidator v) = none := h5
  have h7 : run cddlC9 ext (m + 7)
      (.VTypeRuleLoop 0 [tyIdent "a"]) (newValidator v) = none := by
    show run cddlC9 ext ((m + 6) + 1)
      (.VTypeRuleLoop 0 [tyIdent "a"]) (newValidator v) = none
    rw [run_succ]
    simp only [runStep, h6]
  exact h7

/-- The visits of the cyclic rules never complete, for any fuel. -/
theorem c9_loop (ext : ExternalChecks) (f : Nat) (v : Value) :
    run cddlC9 ext f (.VTypeRule trA9) (newValidator v) = none ∧
      run cddlC9 ext f (.VTypeRule trB9) (newValidator v) = none := by
  induction f using Nat.strong_induction_on with
  | _ f ih =>
    by_cases hf : f < 8
    · interval_cases f <;> exact ⟨rfl, rfl⟩
    · obtain ⟨m, rfl⟩ : ∃ m, f = m + 8 := ⟨f - 8, by omega⟩
      have hm := ih m (by omega)
      exact ⟨c9_chainA ext m v hm.2, c9_chainB ext m v hm.1⟩

/-- C9: the source has no recursion limit and returns no "schema too deep"
error: on the cyclic chain of rule references `a = b  b = a`, which is
actually traversed from the root, the walk recurses without bound —
`validate` fails to complete for every fuel bound and every data value. -/
theorem C9_cyclic_rules_never_terminate (ext : ExternalChecks) (fuel : Nat)
    (v : Value) :
    validate cddlC9 ext fuel v = none := by
  have h := (c9_loop ext fuel v).1
  have hc := validate_eq_spec cddlC9 ext fuel v
  simpa [show rootRuleSpec cddlC9 = some trA9 from rfl, h] using hc

/-- C3 counterexample, alternative A: the map type `\x7b "a" => int \x7d`. -/
def tcA3 : Type1 :=
  .mk (.Map (.mk [.mk [.ValueMemberKey
    (.mk none (some (.Type1M (.mk (.TextValue "a") none) false)) (tyIdent "int"))]])) none

/-- C3 counterexample, alternative B: the map type `\x7b 1 \x7d` (an entry
with no member key). -/
def tcB3 : Type1 :=
  .mk (.Map (.mk [.mk [.ValueMemberKey
    (.mk none none (.mk [.mk (.IntValue 1) none]))]])) none

/-- C3 counterexample data value. -/
def vC3 : Value := .Map [(.Text "k", .Integer 1)]

/-- C3 counterexample: against the map `(Text "k") ↦ 1`, the type choice
`A / B` validates although neither `A` nor `B` validates alone.  Alternative
A fails and, in failing, sets the walker's `advance_to_next_entry` flag
(never reset by the source); alternative B is then evaluated in that leaked
state, its keyless entry is skipped, and the choice succeeds vacuously. -/
theorem C3_choice_absorption_counterexample :
    validate (rootCDDL [tcA3, tcB3]) extTrivial 60 vC3 = some (.ok ()) ∧
      isOkRes (validate (rootCDDL [tcA3]) extTrivial 60 vC3) = false ∧
      isOkRes (validate (rootCDDL [tcB3]) extTrivial 60 vC3) = false :=
  ⟨rfl, rfl, rfl⟩

/-- The entry state of a multi-alternative type-choice visit: the fresh
validator with the multi-type-choice flag set. -/
def flaggedInit (v : Value) : VState :=
  { newValidator v with is_multi_type_choice := true }

/-- The entry state of a type choice carries no errors. -/
theorem flaggedInit_errors (v : Value) : (flaggedInit v).errors = [] := rfl

/-- C3 as amended: type-choice validation tries the alternatives in order in
one shared walker state.  The first alternative runs from the entry state
(with the multi-type-choice flag set); an alternative succeeds iff it leaves
the error-list length unchanged; on success the whole choice succeeds and the
error list is truncated back to its entry value, discarding the errors of
failed alternatives; a later alternative runs from the state left by the
earlier failed alternative, so its success may differ from validating it
independently. -/
theorem C3_choice_tries_alternatives_in_sequence (cddl : CDDL)
    (ext : ExternalChecks) (m : Nat) (v : Value) (A B : Type1) (stA : VState)
    (hA : run cddl ext (m + 2) (.VType1 A) (flaggedInit v) = some stA) :
    (stA.errors = [] →
      run cddl ext (m + 4) (.VType (.mk [A, B])) (newValidator v) = some stA) ∧
      (∀ stB, stA.errors ≠ [] →
        run cddl ext (m + 1) (.VType1 B) stA = some stB →
        (stB.errors.length = stA.errors.length →
          run cddl ext (m + 4) (.VType (.mk [A, B])) (newValidator v) =
            some { stB with errors := [] }) ∧
        (stB.errors.length ≠ stA.errors.length →
          run cddl ext (m + 4) (.VType (.mk [A, B])) (newValidator v) =
            some stB)) := by
  have hstep : run cddl ext (m + 4) (.VType (.mk [A, B])) (newValidator v) =
      run cddl ext (m + 3) (.VTypeLoop 0 [A, B]) (flaggedInit v) := rfl
  constructor
  · intro h0
    rw [hstep]
    show run cddl ext ((m + 2) + 1) (.VTypeLoop 0 [A, B]) (flaggedInit v) = some stA
    rw [run_succ]
    simp [runStep, hA, h0, flaggedInit_errors]
    rw [← h0]
  · intro stB hne hB
    have hlen : ¬stA.errors.length = 0 := by
      simpa [List.length_eq_zero] using hne
    have hloop : run cddl ext (m + 4) (.VType (.mk [A, B])) (newValidator v) =
        run cddl ext (m + 2) (.VTypeLoop (stA.errors.length) [B]) stA := by
      rw [hstep]
      show run cddl ext ((m + 2) + 1) (.VTypeLoop 0 [A, B]) (flaggedInit v) =
        run cddl ext (m + 2) (.VTypeLoop (stA.errors.length) [B]) stA
      rw [run_succ]
      simp [runStep, hA, flaggedInit_errors, hlen]
    constructor
    · intro heq
      rw [hloop]
      show run cddl ext ((m + 1) + 1) (.VTypeLoop (stA.errors.length) [B]) stA =
        some { stB with errors := [] }
      rw [run_succ]
      simp [runStep, hB, heq]
    · intro hne2
      rw [hloop]
      show run cddl ext ((m + 1) + 1) (.VTypeLoop (stA.errors.length) [B]) stA =
        some stB
      rw [run_succ]
      have hbeq : (stB.errors.length == stA.errors.length) = false := by
        simpa using hne2
      simp only [runStep, hB, hbeq, Bool.false_eq_true, if_false]
      rw [run_succ]
      simp [runStep]

/-- C3 witness error record. -/
def errC3w : ValidationError :=
  { reason := "expected type tstr, got Integer(5)"
    cddl_location := ""
    cbor_location := ""
    is_multi_type_choice := true
    is_multi_group_choice := false
    is_group_to_choice_enum := false
    type_group_name_entry := none }

/-- C3 witness intermediate state: after the failed first alternative. -/
def stC3w : VState :=
  { newValidator (.Integer 5) with
      is_multi_type_choice := true
      errors := [errC3w] }

theorem C3_witness :
    run cddlEmpty extTrivial 14
      (.VType (.mk [t1Ident "tstr", t1Ident "int"])) (newValidator (.Integer 5)) =
      some { stC3w with errors := [] } := by
  have h := C3_choice_tries_alternatives_in_sequence cddlEmpty extTrivial 10
    (.Integer 5) (t1Ident "tstr") (t1Ident "int") stC3w rfl
  exact ((h.2 stC3w (by decide) rfl).1 rfl)

/-- The unexpected-key loop of `visit_type2` (map branch) appends one error
per map key missing from the validated-keys set, in map order. -/
theorem unexpectedFold (st1 : VState) (keys : List Value) (ks : List Value) :
    keys.foldl
      (fun s k =>
        if valueMem k ks then s
        else addError s ("unexpected key " ++ reprValue k)) st1 =
      { st1 with
        errors := st1.errors ++
          (keys.filter (fun k => !valueMem k ks)).map
            (fun k => mkErrOf st1 ("unexpected key " ++ reprValue k)) } := by
  induction keys generalizing st1 with
  | nil => simp
  | cons k rest ih =>
      by_cases hk : valueMem k ks
      · simp only [List.foldl_cons, hk, if_true, List.filter_cons, Bool.not_true,
          Bool.false_eq_true, if_false]
        exact ih st1
      · have hk2 : valueMem k ks = false := by simpa using hk
        simp only [List.foldl_cons, hk2, Bool.false_eq_true, if_false,
          List.filter_cons, Bool.not_false, if_true, List.map_cons]
        rw [ih (addError st1 ("unexpected key " ++ reprValue k))]
        simp only [mkErrOf_addError]
        simp [addError, List.append_assoc]

/-- C5 as amended: after the group walk over a map, every key absent from the
validated-keys set yields an "unexpected key" error — provided at least one
key was recorded as validated (the set is initialized, `Some ks`) and no
key-type wildcard collection is pending (`values_to_validate` unset).  When
the walk matched no key at all, the set is `None` and no extra-key error is
produced (see the counterexample). -/
theorem C5_unmatched_keys_flagged_when_validated_set (cddl : CDDL)
    (ext : ExternalChecks) (n : Nat) (g : Group) (m : List (Value × Value))
    (st st1 : VState) (ks : List Value)
    (hcbor : st.cbor = .Map m) (hmk : st.is_member_key = false)
    (hrun : run cddl ext n (.VGroup g) st = some st1)
    (hvals : st1.values_to_validate = none)
    (hkeys : st1.validated_keys = some ks) :
    run cddl ext (n + 1) (.VType2 (.Map g)) st =
      some { st1 with
        errors := st1.errors ++
          ((m.map Prod.fst).filter (fun k => !valueMem k ks)).map
            (fun k => mkErrOf st1 ("unexpected key " ++ reprValue k))
        is_cut_present := false
        cut_value := none } := by
  rw [run_succ]
  simp only [runStep]
  simp only [hcbor, hmk, Bool.false_eq_true, if_false]
  rw [hrun]
  simp only [hvals, hkeys, Option.isNone_none, if_true]
  rw [unexpectedFold]
  simp [hkeys, hvals]

/-- C5 counterexample schema: `root = \x7b \x7d` (the empty map group). -/
def cddlC5x : CDDL := rootCDDL [.mk (.Map (.mk [.mk []])) none]

/-- C5 counterexample: a map with a key described by no group entry validates
successfully against the empty-group map schema, because no entry ever
initialized the validated-keys set and the unexpected-key loop is skipped. -/
theorem C5_extra_key_counterexample :
    validate cddlC5x extTrivial 20 (.Map [(.Text "x", .Integer 1)]) =
      some (.ok ()) := rfl

/-- C5 witness fixtures: `root = \x7b "a" => int \x7d` against a map with the
extra key `"b"`. -/
def gC5w : Group :=
  .mk [.mk [.ValueMemberKey
    (.mk none (some (.Type1M (.mk (.TextValue "a") none) false)) (tyIdent "int"))]]

/-- C5 witness data value. -/
def vC5w : Value := .Map [(.Text "a", .Integer 1), (.Text "b", .Integer 2)]

/-- C5 witness post-group-walk state. -/
def stC5w1 : VState :=
  { newValidator vC5w with
      group_entry_idx := some 0
      validated_keys := some [.Text "a", .Text "a"] }

theorem C5_witness :
    run cddlEmpty extTrivial 21 (.VType2 (.Map gC5w)) (newValidator vC5w) =
      some { stC5w1 with
        errors := [mkErrOf stC5w1 ("unexpected key Text(\"b\")")]
        is_cut_present := false
        cut_value := none } :=
  C5_unmatched_keys_flagged_when_validated_set cddlEmpty extTrivial 20 gC5w
    [(.Text "a", .Integer 1), (.Text "b", .Integer 2)]
    (newValidator vC5w) stC5w1 [.Text "a", .Text "a"] rfl rfl rfl rfl rfl

/-- C6 as amended: for integer endpoints on a non-array integer value, the
inclusive form `L..U` admits exactly `L ≤ v ≤ U`, while the exclusive form
`L...U` admits exactly `L < v < U` — both endpoints are excluded, not only
the upper one; a value outside the admitted range appends one targeted range
error. -/
theorem C6_int_range_semantics (cddl : CDDL) (ext : ExternalChecks) (n : Nat)
    (l u i : Int) (st : VState) (hcbor : st.cbor = .Integer i) :
    (run cddl ext (n + 1) (.VRange (.IntValue l) (.IntValue u) true) st =
      some (if l ≤ i ∧ i ≤ u then st
        else addError st ("expected integer to be in range " ++ toString l ++
          " <= value <= " ++ toString u ++ ", got " ++ reprValue st.cbor))) ∧
      (run cddl ext (n + 1) (.VRange (.IntValue l) (.IntValue u) false) st =
        some (if l < i ∧ i < u then st
          else addError st ("expected integer to be in range " ++ toString l ++
            " < value < " ++ toString u ++ ", got " ++ reprValue st.cbor))) := by
  constructor
  · rw [run_succ]
    simp only [runStep]
    simp only [hcbor]
    by_cases h1 : l ≤ i ∧ i ≤ u
    · have hb : (decide (i < l) || decide (i > u)) = false := by
        simp only [Bool.or_eq_false_iff, decide_eq_false_iff_not]
        omega
      simp [hb, h1]
    · have hb : (decide (i < l) || decide (i > u)) = true := by
        simp only [Bool.or_eq_true, decide_eq_true_eq]
        omega
      simp [hb, h1]
  · rw [run_succ]
    simp only [runStep]
    simp only [hcbor]
    by_cases h1 : l < i ∧ i < u
    · have hb : (decide (i ≤ l) || decide (i ≥ u)) = false := by
        simp only [Bool.or_eq_false_iff, decide_eq_false_iff_not]
        omega
      simp [hb, h1]
    · have hb : (decide (i ≤ l) || decide (i ≥ u)) = true := by
        simp only [Bool.or_eq_true, decide_eq_true_eq]
        omega
      simp [hb, h1]

/-- C6 counterexample: under the claim, `0...2` (exclusive upper) admits the
value `0` since `0 ≤ 0 < 2`; the engine instead reports a range error,
because the exclusive form also excludes the lower endpoint. -/
theorem C6_exclusive_excludes_lower_counterexample :
    resReasons (validate
      (rootCDDL [.mk (.IntValue 0) (some (.rangeOp false (.IntValue 2)))])
      extTrivial 20 (.Integer 0)) =
      some ["expected integer to be in range 0 < value < 2, got Integer(0)"] := rfl

theorem C6_witness :
    run cddlEmpty extTrivial 1 (.VRange (.IntValue 0) (.IntValue 2) false)
      (newValidator (.Integer 1)) = some (newValidator (.Integer 1)) := by
  have h := (C6_int_range_semantics cddlEmpty extTrivial 0 0 2 1
    (newValidator (.Integer 1)) rfl).2
  rw [h]
  norm_num

/-- C7 schema `root = \x7b float => any \x7d`. -/
def cddlC7 : CDDL :=
  rootCDDL [.mk (.Map (.mk [.mk [.ValueMemberKey
    (.mk none (some (.Type1M (t1Ident "float") false)) (tyIdent "any"))]])) none]

/-- C7 schema `root = \x7b * float => any \x7d` (the occurrence-based
collector for the same prelude type). -/
def cddlC7star : CDDL :=
  rootCDDL [.mk (.Map (.mk [.mk [.ValueMemberKey
    (.mk (some .zeroOrMore) (some (.Type1M (t1Ident "float") false))
      (tyIdent "any"))]])) none]

/-- C7 data value: a map with one float-keyed entry. -/
def vC7 : Value := .Map [(.Float (3 / 2), .Integer 0)]

/-- C7: the find-first member-key branch of `visit_identifier` for a float
typename searches the map for a `Null` key, so a map whose only entry has a
float key fails with "map requires entry key of type float"; the
occurrence-based collector in the same function matches float keys and
accepts the same map, exposing the slip. -/
theorem C7_float_member_key_searches_null :
    resReasons (validate cddlC7 extTrivial 30 vC7) =
        some ["map requires entry key of type float"] ∧
      validate cddlC7star extTrivial 30 vC7 = some (.ok ()) := ⟨rfl, rfl⟩

/-- C8 as amended: under CBOR validation the control operators `.bits`,
`.cbor` and `.cborseq` are not dispatched with any semantics: for every
target, controller and state, the control visitor records an "unsupported
control operator" error. -/
theorem C8_bits_cbor_cborseq_unsupported (cddl : CDDL) (ext : ExternalChecks)
    (n : Nat) (target controller : Type2) (c : String) (st : VState)
    (h : c = ".bits" ∨ c = ".cbor" ∨ c = ".cborseq") :
    run cddl ext (n + 1) (.VControl target c controller) st =
      some (addError st ("unsupported control operator " ++ c)) := by
  rcases h with h | h | h <;> subst h <;> rfl

/-- C8 counterexample: `root = bstr .cbor any` against a byte string yields
the "unsupported control operator" error rather than dispatching `.cbor`. -/
theorem C8_unsupported_error_counterexample :
    resReasons (validate
      (rootCDDL [.mk (.Typename "bstr") (some (.ctlOp ".cbor" .Any))])
      extTrivial 20 (.Bytes [1])) =
      some ["unsupported control operator .cbor"] := rfl

theorem C8_witness :
    run cddlEmpty extTrivial 5 (.VControl (.Typename "bstr") (".cbor") .Any)
      (newValidator (.Bytes [1])) =
      some (addError (newValidator (.Bytes [1]))
        ("unsupported control operator .cbor")) :=
  C8_bits_cbor_cborseq_unsupported cddlEmpty extTrivial 4 (.Typename "bstr")
    .Any (".cbor") (newValidator (.Bytes [1])) (Or.inr (Or.inl rfl))

/-- The cut member key `k ^ =>` of the C4 schema. -/
def mkKeyC4 : MemberKey := .Type1M (t1Ident "k") true

/-- The first entry of the C4 schema: `k ^ => T`. -/
def e1C4 (T : Ty) : ValueMemberKeyEntry := .mk none (some mkKeyC4) T

/-- The second entry of the C4 schema: `* tstr => any`. -/
def e2C4 : ValueMemberKeyEntry :=
  .mk (some .zeroOrMore) (some (.Type1M (t1Ident "tstr") false)) (tyIdent "any")

/-- The C4 group `k ^ => T, * tstr => any`. -/
def grpC4 (T : Ty) : Group :=
  .mk [.mk [.ValueMemberKey (e1C4 T), .ValueMemberKey e2C4]]

/-- The C4 map type. -/
def t1C4 (T : Ty) : Type1 := .mk (.Map (grpC4 T)) none

/-- The C4 document `root = \x7b k ^ => T, * tstr => any \x7d`. -/
def cddlC4 (T : Ty) : CDDL := rootCDDL [t1C4 T]

/-- The C4 data value: a map binding the key `"k"` to `val`. -/
def vC4 (val : Value) : Value := .Map [(.Text "k", val)]

/-- The fresh validator over the C4 data value. -/
def st0C4 (val : Value) : VState := newValidator (vC4 val)

/-- The child validator checking the hoisted value of the cut key `"k"`
against the entry type. -/
def childC4 (val : Value) : VState :=
  { newValidator val with cbor_location := "/k" }

/-- The walker state after the first entry: the key `"k"` matched (recorded
twice in the validated-keys set), the cut is pending, and the value-type
errors `errs` were appended. -/
def stE1C4 (val : Value) (he : Option ValidationError)
    (errs : List ValidationError) : VState :=
  { st0C4 val with
      group_entry_idx := some 0
      is_cut_present := true
      cut_value := some (.mk (.TextValue "k") none)
      validated_keys := some [.Text "k", .Text "k"]
      errors := errs
      hard_error := he }

/-- The walker state after the second entry: the wildcard `* tstr => any`
collected no remaining keys. -/
def stE2C4 (val : Value) (he : Option ValidationError)
    (errs : List ValidationError) : VState :=
  { st0C4 val with
      group_entry_idx := some 1
      occurrence := some .zeroOrMore
      is_cut_present := false
      cut_value := some (.mk (.TextValue "k") none)
      validated_keys := some [.Text "k", .Text "k"]
      values_to_validate := some []
      errors := errs
      hard_error := he }

/-- The walker state after the whole map visit (cut bookkeeping reset). -/
def stFinC4 (val : Value) (he : Option ValidationError)
    (errs : List ValidationError) : VState :=
  { stE2C4 val he errs with is_cut_present := false, cut_value := none }

/-- One step of the rule loop on a nonempty list of type-choice alternates. -/
theorem run_typeRuleLoop_cons (cddl : CDDL) (ext : ExternalChecks) (n : Nat)
    (acc : Nat) (t : Ty) (rest : List Ty) (st : VState) :
    run cddl ext (n + 1) (.VTypeRuleLoop acc (t :: rest)) st =
      (match run cddl ext n (.VType t) st with
       | none => none
       | some st1 =>
           if st1.errors.length == st.errors.length then
             some { st1 with errors := st1.errors.take (st1.errors.length - acc) }
           else
             run cddl ext n
               (.VTypeRuleLoop (acc + (st1.errors.length - st.errors.length)) rest)
               st1) := by
  rw [run_succ]
  rfl

/-- One step of the type-choice loop on a nonempty list of choices. -/
theorem run_typeLoop_cons (cddl : CDDL) (ext : ExternalChecks) (n : Nat)
    (acc : Nat) (tc : Type1) (rest : List Type1) (st : VState) :
    run cddl ext (n + 1) (.VTypeLoop acc (tc :: rest)) st =
      (match run cddl ext n (.VType1 tc) st with
       | none => none
       | some st1 =>
           if st1.errors.length == st.errors.length then
             some { st1 with errors := st1.errors.take (st1.errors.length - acc) }
           else
             run cddl ext n
               (.VTypeLoop (acc + (st1.errors.length - st.errors.length)) rest)
               st1) := by
  rw [run_succ]
  rfl

/-- One step of the group-choice loop on a nonempty list of choices. -/
theorem run_groupLoop_cons (cddl : CDDL) (ext : ExternalChecks) (n : Nat)
    (acc : Nat) (gc : GroupChoice) (rest : List GroupChoice) (st : VState) :
    run cddl ext (n + 1) (.VGroupLoop acc (gc :: rest)) st =
      (match run cddl ext n (.VGroupChoice gc) st with
       | none => none
       | some st1 =>
           if st1.errors.length == st.errors.length then
             some { st1 with errors := st1.errors.take (st1.errors.length - acc) }
           else
             run cddl ext n
               (.VGroupLoop (acc + (st1.errors.length - st.errors.length)) rest)
               st1) := by
  rw [run_succ]
  rfl

/-- One step of the group-entries loop on a nonempty list of entries. -/
theorem run_entriesLoop_cons (cddl : CDDL) (ext : ExternalChecks) (n : Nat)
    (idx : Nat) (ge : GroupEntry) (rest : List GroupEntry) (st : VState) :
    run cddl ext (n + 1) (.VEntriesLoop idx (ge :: rest)) st =
      (match run cddl ext n (.VGroupEntry ge)
          { st with group_entry_idx := some idx } with
       | none => none
       | some st1 => run cddl ext n (.VEntriesLoop (idx + 1) rest) st1) := by
  rw [run_succ]
  rfl

/-- The group visit on a single-choice group outside a map-equality control:
the early entry-count check is skipped and the choice loop starts. -/
theorem run_group_singleton (cddl : CDDL) (ext : ExternalChecks) (n : Nat)
    (gc : GroupChoice) (st : VState)
    (hctrl : st.is_ctrl_map_equality = false) :
    run cddl ext (n + 1) (.VGroup (.mk [gc])) st =
      run cddl ext n (.VGroupLoop 0 [gc])
        { st with is_ctrl_map_equality := false } := by
  have hl : ((Group.mk [gc]).groupChoices.length > 1) = False := eq_false (Nat.lt_irrefl 1)
  rw [run_succ]
  simp only [runStep, hl, if_false]
  simp only [hctrl, Bool.false_eq_true, if_false]
  rfl

/-- The group-entry dispatch to a value-member-key entry. -/
theorem run_groupEntry_vmk (cddl : CDDL) (ext : ExternalChecks) (n : Nat)
    (e : ValueMemberKeyEntry) (st : VState) :
    run cddl ext (n + 1) (.VGroupEntry (.ValueMemberKey e)) st =
      run cddl ext n (.VVMKEntry e) st := by
  rw [run_succ]
  rfl

/-- The group-choice dispatch outside group-to-choice enumeration. -/
theorem run_groupChoice_entries (cddl : CDDL) (ext : ExternalChecks) (n : Nat)
    (gc : GroupChoice) (st : VState)
    (he : st.is_group_to_choice_enum = false) :
    run cddl ext (n + 1) (.VGroupChoice gc) st =
      run cddl ext n (.VEntriesLoop 0 gc.groupEntries) st := by
  rw [run_succ]
  simp only [runStep, he, Bool.false_eq_true, if_false]

/-- The type1 dispatch with no range or control operator. -/
theorem run_type1_plain (cddl : CDDL) (ext : ExternalChecks) (n : Nat)
    (t2 : Type2) (st : VState) :
    run cddl ext (n + 1) (.VType1 (.mk t2 none)) st =
      run cddl ext n (.VType2 t2) st := by
  rw [run_succ]
  rfl

/-- The type dispatch on a single-choice type. -/
theorem run_type_single (cddl : CDDL) (ext : ExternalChecks) (n : Nat)
    (tc : Type1) (st : VState) :
    run cddl ext (n + 1) (.VType (.mk [tc])) st =
      run cddl ext n (.VTypeLoop 0 [tc]) st := by
  rw [run_succ]
  rfl

/-- The type-rule dispatch for a rule with no generic parameters. -/
theorem run_typeRule_plain (cddl : CDDL) (ext : ExternalChecks) (n : Nat)
    (tr : TypeRule) (st : VState) (hg : tr.genericParams = none) :
    run cddl ext (n + 1) (.VTypeRule tr) st =
      run cddl ext n
        (.VTypeRuleLoop 0 (type_choice_alternates_from_ident cddl tr.name))
        st := by
  rw [run_succ]
  simp only [runStep, hg]

/-- The map visit outside member-key position, when the group walk leaves a
pending value collection: the unexpected-key loop is skipped and the cut
bookkeeping is reset. -/
theorem run_type2_map_pending (cddl : CDDL) (ext : ExternalChecks) (n : Nat)
    (g : Group) (m : List (Value × Value)) (st st1 : VState)
    (hcbor : st.cbor = .Map m) (hmk : st.is_member_key = false)
    (hrun : run cddl ext n (.VGroup g) st = some st1)
    (hvals : st1.values_to_validate.isNone = false) :
    run cddl ext (n + 1) (.VType2 (.Map g)) st =
      some { st1 with is_cut_present := false, cut_value := none } := by
  rw [run_succ]
  simp only [runStep]
  simp only [hcbor, hmk, Bool.false_eq_true, if_false]
  rw [hrun]
  simp only [hvals, Bool.false_eq_true, if_false]

set_option maxHeartbeats 800000 in
/-- C4: against the schema `root = \x7b k ^ => T, * tstr => any \x7d` and the
map `\x7b "k": val \x7d`, when the entry value `val` fails the cut entry's
value type `T` (producing the error list `cv.errors`), the whole validation
reports exactly those errors recorded against the cut key's value (or, had
the value check raised a hard error, its one-element wrap): it does not fall
through to the later wildcard entry `* tstr => any`, whose key domain also
covers `"k"`, and does not succeed. -/
theorem C4_cut_key_failure_no_fallthrough (ext : ExternalChecks) (h : Nat)
    (T : Ty) (val : Value) (cv : VState)
    (hT : run (cddlC4 T) ext (h + 5) (.VType T) (childC4 val) = some cv)
    (hfail : cv.errors ≠ []) :
    validate (cddlC4 T) ext (h + 17) (vC4 val) =
      some (.error (match cv.hard_error with
        | some e => [e]
        | none => cv.errors)) := by
  have hbne : (cv.errors.length != cv.errors.length) = false := by simp
  have hlen0 : (cv.errors.length == 0) = false := by
    simp only [beq_eq_false_iff_ne, ne_eq, List.length_eq_zero]
    exact hfail
  -- the first entry: the cut key matches, the value check runs the
  -- hypothesis `hT`, and its errors are appended
  have h2 : run (cddlC4 T) ext (h + 6) (.VVMKEntry (e1C4 T))
      ({ st0C4 val with group_entry_idx := some 0 }) =
      some (stE1C4 val cv.hard_error cv.errors) := by
    have hs : run (cddlC4 T) ext (h + 6) (.VVMKEntry (e1C4 T))
        ({ st0C4 val with group_entry_idx := some 0 }) =
        (match run (cddlC4 T) ext (h + 5) (.VType T) (childC4 val) with
         | none => none
         | some cv2 => some (stE1C4 val cv2.hard_error cv2.errors)) := rfl
    rw [hs, hT]
  -- the second entry: the wildcard collects nothing; the only blocked step
  -- is the self-comparison of the error-list length
  have h3 : run (cddlC4 T) ext (h + 5) (.VVMKEntry e2C4)
      ({ stE1C4 val cv.hard_error cv.errors with group_entry_idx := some 1 }) =
      some (stE2C4 val cv.hard_error cv.errors) := by
    have hs : run (cddlC4 T) ext (h + 5) (.VVMKEntry e2C4)
        ({ stE1C4 val cv.hard_error cv.errors with group_entry_idx := some 1 }) =
        (match (if (cv.errors.length != cv.errors.length) = true
                then some (true,
                  { stE2C4 val cv.hard_error cv.errors with advance_to_next_entry := true })
                else some (false, stE2C4 val cv.hard_error cv.errors)) with
         | none => none
         | some (true, stb) => some stb
         | some (false, stb) =>
             match stb.values_to_validate with
             | some values =>
                 run (cddlC4 T) ext (h + 4)
                   (.VValuesLoop (tyIdent "any") "" true values) stb
             | none =>
                 match stb.object_value with
                 | some v =>
                     match run (cddlC4 T) ext (h + 4) (.VType (tyIdent "any"))
                         (childEntry { stb with object_value := none } v) with
                     | none => none
                     | some cv2 =>
                         some { stb with
                           object_value := none
                           cbor_location := ""
                           errors := stb.errors ++ cv2.errors
                           hard_error := orHard stb.hard_error cv2.hard_error
                           occurrence := none }
                 | none =>
                     if !{ stb with object_value := none }.advance_to_next_entry then
                       run (cddlC4 T) ext (h + 4) (.VType (tyIdent "any"))
                         { stb with object_value := none }
                     else some { stb with object_value := none }) := rfl
    rw [hs, hbne]
    rfl
  -- the entries loop
  have h5 : run (cddlC4 T) ext (h + 7)
      (.VEntriesLoop 1 [.ValueMemberKey e2C4]) (stE1C4 val cv.hard_error cv.errors) =
      some (stE2C4 val cv.hard_error cv.errors) := by
    show run (cddlC4 T) ext ((h + 6) + 1)
      (.VEntriesLoop 1 [.ValueMemberKey e2C4]) (stE1C4 val cv.hard_error cv.errors) =
      some (stE2C4 val cv.hard_error cv.errors)
    rw [run_entriesLoop_cons]
    have hge : run (cddlC4 T) ext (h + 6)
        (.VGroupEntry (.ValueMemberKey e2C4))
        ({ stE1C4 val cv.hard_error cv.errors with group_entry_idx := some 1 }) =
        some (stE2C4 val cv.hard_error cv.errors) := by
      show run (cddlC4 T) ext ((h + 5) + 1)
        (.VGroupEntry (.ValueMemberKey e2C4))
        ({ stE1C4 val cv.hard_error cv.errors with group_entry_idx := some 1 }) =
        some (stE2C4 val cv.hard_error cv.errors)
      rw [run_groupEntry_vmk]
      exact h3
    rw [hge]
    rfl
  have h6 : run (cddlC4 T) ext (h + 8)
      (.VEntriesLoop 0 [.ValueMemberKey (e1C4 T), .ValueMemberKey e2C4])
      (st0C4 val) = some (stE2C4 val cv.hard_error cv.errors) := by
    show run (cddlC4 T) ext ((h + 7) + 1)
      (.VEntriesLoop 0 [.ValueMemberKey (e1C4 T), .ValueMemberKey e2C4])
      (st0C4 val) = some (stE2C4 val cv.hard_error cv.errors)
    rw [run_entriesLoop_cons]
    have hge : run (cddlC4 T) ext (h + 7)
        (.VGroupEntry (.ValueMemberKey (e1C4 T)))
        ({ st0C4 val with group_entry_idx := some 0 }) =
        some (stE1C4 val cv.hard_error cv.errors) := by
      show run (cddlC4 T) ext ((h + 6) + 1)
        (.VGroupEntry (.ValueMemberKey (e1C4 T)))
        ({ st0C4 val with group_entry_idx := some 0 }) =
        some (stE1C4 val cv.hard_error cv.errors)
      rw [run_groupEntry_vmk]
      exact h2
    rw [hge]
    exact h5
  -- the group-choice loop: the accumulated errors are kept
  have h8 : run (cddlC4 T) ext (h + 10)
      (.VGroupLoop 0 (grpC4 T).groupChoices) (st0C4 val) =
      some (stE2C4 val cv.hard_error cv.errors) := by
    show run (cddlC4 T) ext ((h + 9) + 1)
      (.VGroupLoop 0
        [GroupChoice.mk [.ValueMemberKey (e1C4 T), .ValueMemberKey e2C4]])
      (st0C4 val) = some (stE2C4 val cv.hard_error cv.errors)
    rw [run_groupLoop_cons]
    have hgc : run (cddlC4 T) ext (h + 9)
        (.VGroupChoice
          (GroupChoice.mk [.ValueMemberKey (e1C4 T), .ValueMemberKey e2C4]))
        (st0C4 val) = some (stE2C4 val cv.hard_error cv.errors) := by
      show run (cddlC4 T) ext ((h + 8) + 1)
        (.VGroupChoice
          (GroupChoice.mk [.ValueMemberKey (e1C4 T), .ValueMemberKey e2C4]))
        (st0C4 val) = some (stE2C4 val cv.hard_error cv.errors)
      rw [run_groupChoice_entries (cddlC4 T) ext (h + 8)
        (GroupChoice.mk [.ValueMemberKey (e1C4 T), .ValueMemberKey e2C4])
        (st0C4 val) rfl]
      exact h6
    rw [hgc]
    simp only [stE2C4, st0C4, newValidator, List.length_nil, hlen0,
      Bool.false_eq_true, if_false]
    rfl
  -- the map visit: the wildcard left a pending collection, so the
  -- unexpected-key loop is skipped and the cut bookkeeping is reset
  have h9 : run (cddlC4 T) ext (h + 12) (.VType2 (.Map (grpC4 T)))
      (st0C4 val) = some (stFinC4 val cv.hard_error cv.errors) := by
    have hst : ({ st0C4 val with is_ctrl_map_equality := false } : VState) =
        st0C4 val := rfl
    have hgr : run (cddlC4 T) ext (h + 11) (.VGroup (grpC4 T)) (st0C4 val) =
        some (stE2C4 val cv.hard_error cv.errors) := by
      show run (cddlC4 T) ext ((h + 10) + 1)
        (.VGroup (Group.mk
          [GroupChoice.mk [.ValueMemberKey (e1C4 T), .ValueMemberKey e2C4]]))
        (st0C4 val) = some (stE2C4 val cv.hard_error cv.errors)
      rw [run_group_singleton (cddlC4 T) ext (h + 10)
        (GroupChoice.mk [.ValueMemberKey (e1C4 T), .ValueMemberKey e2C4])
        (st0C4 val) rfl, hst]
      exact h8
    exact run_type2_map_pending (cddlC4 T) ext (h + 11) (grpC4 T)
      [(.Text "k", val)] (st0C4 val) (stE2C4 val cv.hard_error cv.errors) rfl rfl hgr rfl
  -- the type-choice loop
  have h10 : run (cddlC4 T) ext (h + 14) (.VTypeLoop 0 [t1C4 T]) (st0C4 val) =
      some (stFinC4 val cv.hard_error cv.errors) := by
    show run (cddlC4 T) ext ((h + 13) + 1) (.VTypeLoop 0 [t1C4 T])
      (st0C4 val) = some (stFinC4 val cv.hard_error cv.errors)
    rw [run_typeLoop_cons]
    have ht1 : run (cddlC4 T) ext (h + 13) (.VType1 (t1C4 T)) (st0C4 val) =
        some (stFinC4 val cv.hard_error cv.errors) := by
      show run (cddlC4 T) ext ((h + 12) + 1)
        (.VType1 (Type1.mk (.Map (grpC4 T)) none)) (st0C4 val) =
        some (stFinC4 val cv.hard_error cv.errors)
      rw [run_type1_plain]
      exact h9
    rw [ht1]
    simp only [stFinC4, stE2C4, st0C4, newValidator, List.length_nil, hlen0,
      Bool.false_eq_true, if_false]
    rfl
  -- the rule loop
  have h11 : run (cddlC4 T) ext (h + 16)
      (.VTypeRuleLoop 0 [.mk [t1C4 T]]) (st0C4 val) =
      some (stFinC4 val cv.hard_error cv.errors) := by
    show run (cddlC4 T) ext ((h + 15) + 1)
      (.VTypeRuleLoop 0 [Ty.mk [t1C4 T]]) (st0C4 val) =
      some (stFinC4 val cv.hard_error cv.errors)
    rw [run_typeRuleLoop_cons]
    have hty : run (cddlC4 T) ext (h + 15) (.VType (.mk [t1C4 T]))
        (st0C4 val) = some (stFinC4 val cv.hard_error cv.errors) := by
      show run (cddlC4 T) ext ((h + 14) + 1) (.VType (Ty.mk [t1C4 T]))
        (st0C4 val) = some (stFinC4 val cv.hard_error cv.errors)
      rw [run_type_single]
      exact h10
    rw [hty]
    simp only [stFinC4, stE2C4, st0C4, newValidator, List.length_nil, hlen0,
      Bool.false_eq_true, if_false]
    rfl
  have hTop : run (cddlC4 T) ext (h + 17) (.VTypeRule (rootTR [t1C4 T]))
      (newValidator (vC4 val)) = some (stFinC4 val cv.hard_error cv.errors) := by
    show run (cddlC4 T) ext ((h + 16) + 1) (.VTypeRule (rootTR [t1C4 T]))
      (st0C4 val) = some (stFinC4 val cv.hard_error cv.errors)
    rw [run_typeRule_plain (cddlC4 T) ext (h + 16) (rootTR [t1C4 T])
      (st0C4 val) rfl]
    have halt : type_choice_alternates_from_ident (cddlC4 T)
        (rootTR [t1C4 T]).name = [Ty.mk [t1C4 T]] := rfl
    rw [halt]
    exact h11
  have hr : rootRuleSpec (cddlC4 T) = some (rootTR [t1C4 T]) := rfl
  have hc := validate_eq_spec (cddlC4 T) ext (h + 17) (vC4 val)
  rw [hr] at hc
  simp only [hTop] at hc
  rw [hc]
  rcases hhe : cv.hard_error with _ | e
  · rcases hce : cv.errors with _ | ⟨e0, es⟩
    · exact absurd hce hfail
    · simp [stFinC4, stE2C4]
  · simp [stFinC4, stE2C4]

/-- C4 witness: the entry type `int`, the value `"not-int"`. -/
def errC4w : ValidationError :=
  { reason := "expected type int, got Text(\"not-int\")"
    cddl_location := ""
    cbor_location := "/k"
    is_multi_type_choice := false
    is_multi_group_choice := false
    is_group_to_choice_enum := false
    type_group_name_entry := none }

/-- C4 witness child-check result state. -/
def cvC4w : VState := { childC4 (.Text "not-int") with errors := [errC4w] }

theorem C4_witness :
    validate (cddlC4 (tyIdent "int")) extTrivial 24 (vC4 (.Text "not-int")) =
      some (.error [errC4w]) := by
  have h := C4_cut_key_failure_no_fallthrough extTrivial 7 (tyIdent "int")
    (.Text "not-int") cvC4w rfl (by decide)
  exact h

end CddlCbor
